import Mathlib

/-!
Verification of the GreeControl frame codec (client.py).

This file gives a shallow embedding of the codec: the enum classes, the
`DeviceConfig` state aggregate, the decode path (`Decode`, `DecodeFanState`,
`DecodeCustomSleepCurve`, `DecodeTemp`), the encode path (`Encode`,
`EncodeRemoteTempUpdate`, the temperature encoders, the noise-control step
function) and the frame-layer checksum helpers, followed by theorems about
the properties the codec is supposed to satisfy.

Modelling conventions:
* Python byte buffers received from the device are `List ℕ` (entries 0..255);
  indexing `buf[i]` is `buf.getD i 0` (all call sites are guarded by length
  checks in the source).
* The encoder builds a Python list of ints; since several fields can be
  negative (`Enum` values of -1, `fan_speed` initialised to -1), the encoded
  frame is a `List ℤ`.  Python's `<<`, `>>`, `|`, `&` on ints are modelled by
  `pyShl` (multiplication by a power of two, exact for all signs), `pyShr`
  (floor division by a power of two, Python's arithmetic shift), `Int.lor`
  and `Int.land` (Mathlib's two's-complement bitwise operations, which agree
  with Python's semantics on negative numbers).
* Python `int()` truncates toward zero; `pytrunc` reproduces this on `ℚ`.
* Python enum constructors (`DeviceMode(x)` etc.) raise `ValueError` on an
  undefined value; each enum gets a `fromValue : ℕ → Option _` where `none`
  models the raised exception.  `Decode` therefore returns
  `Option (Bool × DeviceConfig)`: `some (false, self)` for the length
  precondition failure (which returns `False` without mutating), `some
  (true, cfg)` for a successful decode, and `none` for a raised exception.
* `Encode` works on a deep copy of the receiver; the state-passing wrapper
  `EncodeSt` returns both the produced frame and the receiver's state after
  the call, mirroring that every assignment in the source targets the copy
  `cfg` (or the output list) and never `self`.
-/

namespace GreeControl

/-- Bit extraction helper from the source: `(val >> lsb_pos) & ((1 << n_bits) - 1)`. -/
def GetBits (val lsb_pos n_bits : ℕ) : ℕ :=
  (val >>> lsb_pos) &&& ((1 <<< n_bits) - 1)

/-- Single-bit test from the source: `(val & (1 << lsb_pos)) != 0`. -/
def GetBit (val lsb_pos : ℕ) : Bool :=
  decide ((val &&& (1 <<< lsb_pos)) ≠ 0)

/-- Python `int()` on a rational: truncation toward zero. -/
def pytrunc (q : ℚ) : ℤ :=
  if q < 0 then -((-q).floor) else q.floor

/-- Python bool used as an int bit. -/
def boolVal (b : Bool) : ℤ := if b then 1 else 0

/-- Python `<<` on an int: multiplication by a power of two (exact for all signs). -/
def pyShl (a : ℤ) (k : ℕ) : ℤ := a * 2 ^ k

/-- Python `>>` on an int: arithmetic shift, i.e. floor division by a power of two. -/
def pyShr (a : ℤ) (k : ℕ) : ℤ := Int.fdiv a (2 ^ k)

inductive TempUnits
  | UNKNOWN | CELSIUS | FAHRENHEIT
  deriving DecidableEq, Repr

inductive TempDisplay
  | UNKNOWN | NONE | SETPOINT | INDOOR | OUTDOOR
  deriving DecidableEq, Repr

/-- value -1, 0, 1, 2, 3 for UNKNOWN, NONE, SETPOINT, INDOOR, OUTDOOR. -/
def TempDisplay.value : TempDisplay → ℤ
  | .UNKNOWN => -1 | .NONE => 0 | .SETPOINT => 1 | .INDOOR => 2 | .OUTDOOR => 3

/-- Python `TempDisplay(n)`: `none` models the `ValueError` on an undefined value. -/
def TempDisplay.fromValue : ℕ → Option TempDisplay
  | 0 => some .NONE | 1 => some .SETPOINT | 2 => some .INDOOR | 3 => some .OUTDOOR
  | _ => none

inductive DeviceMode
  | UNKNOWN | AUTO | COOL | DRY | FAN | HEAT | MODE5 | MODE6 | MODE7
  deriving DecidableEq, Repr

/-- value -1, 0..7 for UNKNOWN, AUTO, COOL, DRY, FAN, HEAT, MODE5, MODE6, MODE7. -/
def DeviceMode.value : DeviceMode → ℤ
  | .UNKNOWN => -1 | .AUTO => 0 | .COOL => 1 | .DRY => 2 | .FAN => 3
  | .HEAT => 4 | .MODE5 => 5 | .MODE6 => 6 | .MODE7 => 7

/-- Python `DeviceMode(n)`; all of 0..7 are defined. -/
def DeviceMode.fromValue : ℕ → Option DeviceMode
  | 0 => some .AUTO | 1 => some .COOL | 2 => some .DRY | 3 => some .FAN
  | 4 => some .HEAT | 5 => some .MODE5 | 6 => some .MODE6 | 7 => some .MODE7
  | _ => none

inductive FanState
  | UNKNOWN | AUTO | LEVEL_1 | LEVEL_2 | LEVEL_3 | LEVEL_4 | LEVEL_5
  | TURBO | QUIET | AUTO_QUIET | UNKNOWN_QUIET
  deriving DecidableEq, Repr

/-- value -1, 0..9 in declaration order. -/
def FanState.value : FanState → ℤ
  | .UNKNOWN => -1 | .AUTO => 0 | .LEVEL_1 => 1 | .LEVEL_2 => 2 | .LEVEL_3 => 3
  | .LEVEL_4 => 4 | .LEVEL_5 => 5 | .TURBO => 6 | .QUIET => 7 | .AUTO_QUIET => 8
  | .UNKNOWN_QUIET => 9

inductive ValveState
  | UNKNOWN | NONE | INTAKE | EXHAUST | OTHER
  deriving DecidableEq, Repr

/-- value -1, 0, 1, 2, 3 for UNKNOWN, NONE, INTAKE, EXHAUST, OTHER. -/
def ValveState.value : ValveState → ℤ
  | .UNKNOWN => -1 | .NONE => 0 | .INTAKE => 1 | .EXHAUST => 2 | .OTHER => 3

/-- Python `ValveState(n)`; all of 0..3 are defined. -/
def ValveState.fromValue : ℕ → Option ValveState
  | 0 => some .NONE | 1 => some .INTAKE | 2 => some .EXHAUST | 3 => some .OTHER
  | _ => none

inductive HumidifyType
  | UNKNOWN | NONE | CONTINUOUS | INTELLIGENT | LEVEL_40 | LEVEL_50 | LEVEL_60 | LEVEL_70
  deriving DecidableEq, Repr

/-- value -1, 0..6 in declaration order. -/
def HumidifyType.value : HumidifyType → ℤ
  | .UNKNOWN => -1 | .NONE => 0 | .CONTINUOUS => 1 | .INTELLIGENT => 2
  | .LEVEL_40 => 3 | .LEVEL_50 => 4 | .LEVEL_60 => 5 | .LEVEL_70 => 6

/-- Python `HumidifyType(n)`; only 0..6 are defined, 7 raises. -/
def HumidifyType.fromValue : ℕ → Option HumidifyType
  | 0 => some .NONE | 1 => some .CONTINUOUS | 2 => some .INTELLIGENT
  | 3 => some .LEVEL_40 | 4 => some .LEVEL_50 | 5 => some .LEVEL_60 | 6 => some .LEVEL_70
  | _ => none

inductive SleepCurveType
  | UNKNOWN | NONE | EXPERT | TRADITIONAL | DIY | SIESTA
  deriving DecidableEq, Repr

/-- value -1, 0, 1, 2, 3, 128 for UNKNOWN, NONE, EXPERT, TRADITIONAL, DIY, SIESTA. -/
def SleepCurveType.value : SleepCurveType → ℤ
  | .UNKNOWN => -1 | .NONE => 0 | .EXPERT => 1 | .TRADITIONAL => 2 | .DIY => 3
  | .SIESTA => 128

/-- Python `SleepCurveType(n)`; 0..3 and 128 are defined. -/
def SleepCurveType.fromValue : ℕ → Option SleepCurveType
  | 0 => some .NONE | 1 => some .EXPERT | 2 => some .TRADITIONAL | 3 => some .DIY
  | 128 => some .SIESTA
  | _ => none

inductive HorizontalAirDirection
  | UNKNOWN | SWINGING | LEFT | CENTER_LEFT | CENTER | CENTER_RIGHT | RIGHT
  deriving DecidableEq, Repr

/-- value 0..6 in declaration order (UNKNOWN is 0 for this enum). -/
def HorizontalAirDirection.value : HorizontalAirDirection → ℤ
  | .UNKNOWN => 0 | .SWINGING => 1 | .LEFT => 2 | .CENTER_LEFT => 3
  | .CENTER => 4 | .CENTER_RIGHT => 5 | .RIGHT => 6

/-- Python `HorizontalAirDirection(n)`; only 0..6 are defined, 7..15 raise. -/
def HorizontalAirDirection.fromValue : ℕ → Option HorizontalAirDirection
  | 0 => some .UNKNOWN | 1 => some .SWINGING | 2 => some .LEFT | 3 => some .CENTER_LEFT
  | 4 => some .CENTER | 5 => some .CENTER_RIGHT | 6 => some .RIGHT
  | _ => none

inductive VerticalAirDirection
  | UNKNOWN | SWINGING | UP | CENTER_UP | CENTER | CENTER_DOWN | DOWN
  deriving DecidableEq, Repr

/-- value 0..6 in declaration order (UNKNOWN is 0 for this enum). -/
def VerticalAirDirection.value : VerticalAirDirection → ℤ
  | .UNKNOWN => 0 | .SWINGING => 1 | .UP => 2 | .CENTER_UP => 3
  | .CENTER => 4 | .CENTER_DOWN => 5 | .DOWN => 6

/-- Python `VerticalAirDirection(n)`; only 0..6 are defined, 7..15 raise. -/
def VerticalAirDirection.fromValue : ℕ → Option VerticalAirDirection
  | 0 => some .UNKNOWN | 1 => some .SWINGING | 2 => some .UP | 3 => some .CENTER_UP
  | 4 => some .CENTER | 5 => some .CENTER_DOWN | 6 => some .DOWN
  | _ => none

/-- The device state aggregate, with the fields of `DeviceConfig.__init__`.
Numeric fields that the program only ever assigns non-negative values are
`ℕ`; `fan_speed` is `ℤ` (initialised to -1 in the source) and `temp` is `ℚ`
(half-degree Celsius resolution, initialised to -1). -/
structure DeviceConfig where
  valid : Bool
  temp : ℚ
  temp_units : TempUnits
  is_on : Bool
  mode : DeviceMode
  light : Bool
  purify : Bool
  temp_display : TempDisplay
  eco_mode : Bool
  fan_state : Option FanState
  fan_speed : ℤ
  turbo : Bool
  quiet_type : ℕ
  x_fan : Bool
  x_fan_for_heat : Bool
  intake_exhaust : ValveState
  fan_speed_low_res : ℕ
  mode_mystery_bit_3 : Bool
  mode_mystery_bit_2 : Bool
  timer_on_off_enable : Bool
  timer_on_enable : Bool
  timer_off_enable : Bool
  minutes_until_on : ℕ
  minutes_until_off : ℕ
  clock : ℕ
  day_of_week : ℕ
  sleep_curve_clock : ℕ
  sleep_curve_clock_invalid : Bool
  on_time : ℕ
  off_time : ℕ
  day_of_week_on_mask : ℕ
  day_of_week_off_mask : ℕ
  timer_on_use_clock : ℕ
  timer_off_use_clock : ℕ
  horizontal_air_direction : HorizontalAirDirection
  vertical_air_direction : VerticalAirDirection
  humidify_type : HumidifyType
  heat_assist : Bool
  sleep_curve_type : SleepCurveType
  custom_sleep_curve : List ℚ
  noise_control_enable : Bool
  noise_control_heating : ℕ
  noise_control_cooling : ℕ
  regional_swing_position : ℕ
  regional_swing_avoid_people : Bool
  use_remote_temp_sensor : Bool
  remote_temp_val : ℕ
  timer_remote_flag : Bool
  deriving DecidableEq, Repr

/-- The state built by `DeviceConfig.__init__`. -/
def initConfig : DeviceConfig where
  valid := false
  temp := -1
  temp_units := TempUnits.UNKNOWN
  is_on := false
  mode := DeviceMode.UNKNOWN
  light := false
  purify := false
  temp_display := TempDisplay.UNKNOWN
  eco_mode := false
  fan_state := none
  fan_speed := -1
  turbo := false
  quiet_type := 0
  x_fan := false
  x_fan_for_heat := false
  intake_exhaust := ValveState.UNKNOWN
  fan_speed_low_res := 0
  mode_mystery_bit_3 := false
  mode_mystery_bit_2 := false
  timer_on_off_enable := false
  timer_on_enable := false
  timer_off_enable := false
  minutes_until_on := 0
  minutes_until_off := 0
  clock := 0
  day_of_week := 0
  sleep_curve_clock := 0
  sleep_curve_clock_invalid := false
  on_time := 0
  off_time := 0
  day_of_week_on_mask := 0
  day_of_week_off_mask := 0
  timer_on_use_clock := 0
  timer_off_use_clock := 0
  horizontal_air_direction := HorizontalAirDirection.UNKNOWN
  vertical_air_direction := VerticalAirDirection.UNKNOWN
  humidify_type := HumidifyType.NONE
  heat_assist := false
  sleep_curve_type := SleepCurveType.NONE
  custom_sleep_curve := List.replicate 8 0
  noise_control_enable := false
  noise_control_heating := 30
  noise_control_cooling := 30
  regional_swing_position := 0
  regional_swing_avoid_people := false
  use_remote_temp_sensor := false
  remote_temp_val := 0
  timer_remote_flag := false

namespace DeviceConfig

/-- `DeviceConfig.DecodeTemp`.  `upper`/`lower` come from bitfields, hence `ℕ`.
The Fahrenheit branch's float arithmetic is modelled exactly over `ℚ`
(`int()` is truncation; the intermediate value is never within float error
of an integer boundary, so the rational model agrees with the float code). -/
def DecodeTemp (self : DeviceConfig) (upper lower : ℕ) : ℚ :=
  if self.temp_units = TempUnits.CELSIUS then
    min ((upper : ℚ) + 16) 30
  else if upper ≤ 0 then 61
  else
    let temp_f : ℚ := (((upper : ℚ) + 16) * 9 / 5) + 32 + (lower : ℚ)
    min ((pytrunc temp_f : ℚ)) 86

/-- `DeviceConfig.EncodeTemp`. -/
def EncodeTemp (self : DeviceConfig) (temp : ℚ) : ℤ :=
  if self.temp_units = TempUnits.CELSIUS then
    pytrunc temp - 16
  else
    let temp_c : ℚ := (temp - 32) / 9 * 5
    let val := pytrunc (temp_c - 15.5)
    let val := max val 0
    min val 14

/-- `DeviceConfig.EncodeTempFahrenheitFractionalBit`. -/
def EncodeTempFahrenheitFractionalBit (temp : ℚ) (units : TempUnits) : Bool :=
  if units = TempUnits.CELSIUS then false
  else decide (temp ∈ ([63, 65, 67, 70, 72, 74, 76, 79, 81, 83, 85] : List ℚ))

/-- `DeviceConfig.EncodeTempCelciusFractionalBit`. -/
def EncodeTempCelciusFractionalBit (temp : ℚ) (units : TempUnits) : Bool :=
  if units = TempUnits.CELSIUS then decide (temp - ((pytrunc temp : ℤ) : ℚ) = 0.5)
  else false

/-- First half of `DeviceConfig.DecodeFanState`: the mode-dependent
`x_fan`/`x_fan_for_heat` statements and the `turbo`/`quiet_type` reads. -/
def DecodeFanStateFlags (self : DeviceConfig) (buf : List ℕ) : DeviceConfig :=
  let b := fun i => buf.getD i 0
  let self :=
    if self.mode = DeviceMode.COOL ∨ self.mode = DeviceMode.DRY then
      { self with x_fan := GetBit (b 10) 3, x_fan_for_heat := false }
    else self
  let self :=
    if self.mode = DeviceMode.HEAT then
      { self with x_fan := false, x_fan_for_heat := GetBit (b 10) 3 }
    else self
  { self with turbo := GetBit (b 10) 0, quiet_type := GetBits (b 20) 2 2 }

/-- Second half of `DeviceConfig.DecodeFanState`: the if/elif chain that
unifies `turbo`/`quiet_type`/`fan_speed` into `fan_state` (the `quiet_type
== 3` arm only logs and leaves `fan_state` unchanged). -/
def DecodeFanStateUnify (self : DeviceConfig) : DeviceConfig :=
  if self.turbo then { self with fan_state := some FanState.TURBO }
  else if self.quiet_type = 1 then { self with fan_state := some FanState.AUTO_QUIET }
  else if self.quiet_type = 2 then { self with fan_state := some FanState.QUIET }
  else if self.quiet_type = 3 then self
  else
    let fan_speeds := [FanState.AUTO, FanState.LEVEL_1, FanState.LEVEL_2,
                       FanState.LEVEL_3, FanState.LEVEL_4, FanState.LEVEL_5]
    if 0 ≤ self.fan_speed ∧ self.fan_speed ≤ 5 then
      { self with fan_state := some (fan_speeds.getD self.fan_speed.toNat FanState.UNKNOWN) }
    else
      { self with fan_state := some FanState.UNKNOWN }

/-- `DeviceConfig.DecodeFanState`.  `none` models a raised `ValueError`
(unreachable here: the `ValveState` argument is a 2-bit field). -/
def DecodeFanState (self : DeviceConfig) (buf : List ℕ) : Option DeviceConfig :=
  let self := DecodeFanStateFlags self buf
  match ValveState.fromValue (GetBits (buf.getD 11 0) 4 2) with
  | none => none
  | some intake =>
    let self := { self with
      intake_exhaust := intake
      fan_speed := (GetBits (buf.getD 22 0) 0 3 : ℤ) }
    some (DecodeFanStateUnify self)

/-- `DeviceConfig.DecodeCustomSleepCurve`. -/
def DecodeCustomSleepCurve (self : DeviceConfig) (buf : List ℕ) : DeviceConfig :=
  let b := fun i => buf.getD i 0
  { self with custom_sleep_curve :=
      [self.DecodeTemp (b 21 >>> 4) 0, self.DecodeTemp (b 21 &&& 0x0f) 0,
       self.DecodeTemp (b 24 >>> 4) 0, self.DecodeTemp (b 24 &&& 0x0f) 0,
       self.DecodeTemp (b 25 >>> 4) 0, self.DecodeTemp (b 25 &&& 0x0f) 0,
       self.DecodeTemp (b 26 >>> 4) 0, self.DecodeTemp (b 26 &&& 0x0f) 0] }

/-- `DeviceConfig.Decode`.  Result: `some (false, self)` for the length
precondition failure (Python returns `False` without mutating), `some
(true, cfg)` for a successful decode (Python returns `True`), `none` for a
raised `ValueError` from an enum constructor. -/
def Decode (self : DeviceConfig) (buf : List ℕ) : Option (Bool × DeviceConfig) :=
  if buf.length < 51 then some (false, self) else do
  let b := fun i => buf.getD i 0
  let mode ← DeviceMode.fromValue (GetBits (b 8) 4 3)
  let units := if GetBits (b 11) 7 1 ≠ 0 then TempUnits.FAHRENHEIT else TempUnits.CELSIUS
  let self := { self with
    is_on := GetBit (b 8) 7
    mode := mode
    mode_mystery_bit_3 := GetBit (b 8) 3
    mode_mystery_bit_2 := GetBit (b 8) 2
    fan_speed_low_res := GetBits (b 8) 0 2
    timer_on_off_enable := GetBit (b 9) 3
    temp_units := units }
  let temp0 := self.DecodeTemp (GetBits (b 9) 4 4) (GetBits (b 11) 6 1)
  let self := { self with
    temp := if units = TempUnits.CELSIUS ∧ GetBit (b 14) 3 = true then temp0 + 0.5 else temp0 }
  let self ← self.DecodeFanState buf
  let vad ← VerticalAirDirection.fromValue (GetBits (b 12) 4 4)
  let had ← HorizontalAirDirection.fromValue (GetBits (b 12) 0 4)
  let td ← TempDisplay.fromValue (GetBits (b 13) 4 2)
  let hum ← HumidifyType.fromValue (GetBits (b 14) 4 3)
  let sct ←
    if GetBit (b 20) 7 then some SleepCurveType.SIESTA
    else SleepCurveType.fromValue ((((b 8) &&& 0x08) >>> 2) ||| (((b 20) &&& 0x10) >>> 4))
  let self := { self with
    purify := GetBit (b 10) 2
    light := GetBit (b 10) 1
    vertical_air_direction := vad
    horizontal_air_direction := had
    temp_display := td
    use_remote_temp_sensor := GetBit (b 13) 6
    humidify_type := hum
    heat_assist := GetBit (b 15) 7
    minutes_until_on := (((b 17) &&& 0x70) <<< 4) ||| b 16
    minutes_until_off := (((b 18) &&& 0x7F) <<< 4) ||| ((b 17) &&& 0x0F)
    timer_remote_flag := GetBit (b 17) 7
    timer_on_enable := GetBit (b 19) 5
    timer_off_enable := GetBit (b 19) 4
    sleep_curve_type := sct }
  let self := self.DecodeCustomSleepCurve buf
  let self := { self with
    remote_temp_val := b 28
    clock := (((b 29) &&& 0x7f) <<< 8) ||| b 30
    sleep_curve_clock_invalid := GetBit (b 31) 7
    sleep_curve_clock := (((b 31) &&& 0x7f) <<< 8) ||| b 32
    timer_on_use_clock := GetBits (b 33) 6 2
    timer_off_use_clock := GetBits (b 33) 4 2
    off_time := (((b 33) &&& 7) <<< 8) ||| b 34
    on_time := (((b 35) &&& 7) <<< 8) ||| b 36
    day_of_week := GetBits (b 35) 5 3
    day_of_week_on_mask := b 37
    day_of_week_off_mask := b 38
    regional_swing_avoid_people := GetBit (b 39) 2
    regional_swing_position := if GetBit (b 39) 1 then 256 else b 40
    noise_control_enable := GetBit (b 42) 0
    noise_control_cooling := b 47
    noise_control_heating := b 48
    eco_mode := GetBit (b 49) 0
    valid := true }
  return (true, self)

/-- `DeviceConfig.Copy`: `copy.deepcopy` of a value. -/
def Copy (self : DeviceConfig) : DeviceConfig := self

/-- `DeviceConfig.FanSpeedForNoiseLevel`: the dB-threshold step function. -/
def FanSpeedForNoiseLevel (noise_level : ℕ) : ℕ :=
  if noise_level ≥ 38 then 5
  else if noise_level ≥ 36 then 4
  else if noise_level ≥ 33 then 3
  else if noise_level ≥ 31 then 2
  else if noise_level ≥ 29 then 1
  else 0

/-- Encode step: `if not cfg.is_on`, force-clear the dependent fields. -/
def EncodeOffState (cfg : DeviceConfig) : DeviceConfig :=
  if cfg.is_on then cfg
  else { cfg with
    intake_exhaust := ValveState.NONE
    quiet_type := 0
    sleep_curve_type := SleepCurveType.NONE
    humidify_type := HumidifyType.NONE
    purify := false }

/-- Encode step: `if cfg.fan_state is not None`, derive the raw
turbo/quiet_type/fan_speed triplet from the unified fan state. -/
def EncodeFanState (cfg : DeviceConfig) : DeviceConfig :=
  match cfg.fan_state with
  | none => cfg
  | some fs =>
    let cfg := { cfg with turbo := false, quiet_type := 0, fan_speed := 0 }
    let cfg := if fs = FanState.TURBO then { cfg with turbo := true } else cfg
    let cfg := if fs = FanState.AUTO_QUIET then { cfg with quiet_type := 1 } else cfg
    let cfg := if fs = FanState.QUIET then { cfg with quiet_type := 2 } else cfg
    if fs ∈ [FanState.AUTO, FanState.LEVEL_1, FanState.LEVEL_2,
             FanState.LEVEL_3, FanState.LEVEL_4, FanState.LEVEL_5] then
      { cfg with fan_speed := fs.value }
    else cfg

/-- Encode step: `if cfg.noise_control_enable`, override the fan speed from
the configured dB threshold of the active mode (the source reads the noise
levels from `self`, the receiver). -/
def EncodeNoiseControl (self cfg : DeviceConfig) : DeviceConfig :=
  if cfg.noise_control_enable then
    let cfg :=
      if cfg.mode = DeviceMode.HEAT then
        { cfg with fan_speed := (FanSpeedForNoiseLevel self.noise_control_heating : ℤ)
                   turbo := false }
      else cfg
    if cfg.mode = DeviceMode.COOL then
      { cfg with fan_speed := (FanSpeedForNoiseLevel self.noise_control_cooling : ℤ)
                 turbo := false }
    else cfg
  else cfg

/-- `DeviceConfig.SetChecksum`: `for i in range(2, len(buf)-1): sum += buf[i]`,
then the sum masked to 8 bits is written into the final byte. -/
def SetChecksum (out : List ℤ) : List ℤ :=
  out.set (out.length - 1)
    (Int.land (∑ i ∈ Finset.range (out.length - 3), out.getD (i + 2) 0) 0xff)

/-- The 40-byte command frame body laid out by `Encode` (before the checksum
is written into the final byte).  `out[2] = len(out) - 3 = 37`; indices 20,
24, 38 and 39 are never assigned and stay 0. -/
def EncodeLayout (self cfg : DeviceConfig) (update_on_off_timers : Bool) : List ℤ :=
  let out4 : ℤ :=
    Int.lor (Int.lor 0xAD (if update_on_off_timers then 0x02 else 0))
      (if self.use_remote_temp_sensor then 0x40 else 0)
  let out5 : ℤ :=
    Int.lor
      (Int.lor (Int.lor (pyShr (cfg.fan_speed + 1) 1) (pyShl (boolVal cfg.is_on) 7))
        (pyShl cfg.mode.value 4))
      (Int.lor (pyShl (Int.land cfg.sleep_curve_type.value 2) 2)
        (pyShl (boolVal cfg.mode_mystery_bit_2) 2))
  let out6 : ℤ :=
    Int.lor (pyShl (cfg.EncodeTemp cfg.temp) 4) (pyShl (boolVal cfg.timer_on_off_enable) 3)
  let out7base : ℤ :=
    Int.lor (Int.lor (pyShl (boolVal cfg.purify) 2) (pyShl (boolVal cfg.light) 1))
      (pyShl (boolVal cfg.turbo) 0)
  let out7 : ℤ :=
    if cfg.mode = DeviceMode.COOL ∨ cfg.mode = DeviceMode.DRY then
      Int.lor out7base (pyShl (boolVal cfg.x_fan) 3)
    else if cfg.mode = DeviceMode.HEAT then
      Int.lor out7base (pyShl (boolVal cfg.x_fan_for_heat) 3)
    else out7base
  let out8 : ℤ :=
    Int.lor
      (Int.lor
        (Int.lor (pyShl (boolVal (EncodeTempFahrenheitFractionalBit cfg.temp cfg.temp_units)) 6)
          (pyShl (if cfg.temp_units = TempUnits.FAHRENHEIT then 1 else 0) 7))
        (pyShl cfg.intake_exhaust.value 4))
      0x02
  let out9 : ℤ :=
    Int.lor (pyShl cfg.vertical_air_direction.value 4) cfg.horizontal_air_direction.value
  let out10 : ℤ :=
    Int.lor (pyShl cfg.temp_display.value 4) (pyShl (boolVal cfg.use_remote_temp_sensor) 6)
  let out11 : ℤ :=
    Int.lor (pyShl (boolVal (EncodeTempCelciusFractionalBit cfg.temp cfg.temp_units)) 3)
      (pyShl cfg.humidify_type.value 4)
  let out12 : ℤ := if cfg.mode = DeviceMode.HEAT then pyShl (boolVal cfg.heat_assist) 7 else 0
  let out13 : ℤ := ((cfg.minutes_until_on &&& 0xff : ℕ) : ℤ)
  let out14 : ℤ :=
    Int.lor
      (Int.lor (((cfg.minutes_until_on &&& 0x700) >>> 4 : ℕ) : ℤ)
        ((cfg.minutes_until_off &&& 0x0f : ℕ) : ℤ))
      (pyShl (boolVal cfg.timer_remote_flag) 7)
  let out15 : ℤ := (((cfg.minutes_until_off &&& 0x7f0) >>> 4 : ℕ) : ℤ)
  let out16 : ℤ :=
    Int.lor (pyShl (boolVal cfg.timer_on_enable) 5) (pyShl (boolVal cfg.timer_off_enable) 4)
  let out17base : ℤ := pyShl (cfg.quiet_type : ℤ) 2
  let out17 : ℤ :=
    if cfg.sleep_curve_type = SleepCurveType.SIESTA then
      Int.lor out17base cfg.sleep_curve_type.value
    else Int.lor out17base (pyShl (Int.land cfg.sleep_curve_type.value 1) 4)
  let csc := fun i => cfg.custom_sleep_curve.getD i 0
  let out18 : ℤ := Int.lor (pyShl (cfg.EncodeTemp (csc 0)) 4) (cfg.EncodeTemp (csc 1))
  let out19 : ℤ := cfg.fan_speed
  let out21 : ℤ := Int.lor (pyShl (cfg.EncodeTemp (csc 2)) 4) (cfg.EncodeTemp (csc 3))
  let out22 : ℤ := Int.lor (pyShl (cfg.EncodeTemp (csc 4)) 4) (cfg.EncodeTemp (csc 5))
  let out23 : ℤ := Int.lor (pyShl (cfg.EncodeTemp (csc 6)) 4) (cfg.EncodeTemp (csc 7))
  let out25 : ℤ := (cfg.remote_temp_val : ℤ)
  let out26 : ℤ := ((cfg.clock >>> 8 : ℕ) : ℤ)
  let out27 : ℤ := ((cfg.clock &&& 0xff : ℕ) : ℤ)
  let out28 : ℤ := ((cfg.sleep_curve_clock >>> 8 : ℕ) : ℤ)
  let out29 : ℤ := ((cfg.sleep_curve_clock &&& 0xff : ℕ) : ℤ)
  let out30 : ℤ :=
    (((cfg.timer_on_use_clock <<< 6) ||| (cfg.timer_off_use_clock <<< 4)
      ||| (cfg.off_time >>> 8) : ℕ) : ℤ)
  let out31 : ℤ := ((cfg.off_time &&& 0xff : ℕ) : ℤ)
  let out32 : ℤ := (((cfg.day_of_week <<< 5) ||| (cfg.on_time >>> 8) : ℕ) : ℤ)
  let out33 : ℤ := ((cfg.on_time &&& 0xff : ℕ) : ℤ)
  let out34 : ℤ := (cfg.day_of_week_on_mask : ℤ)
  let out35 : ℤ := (cfg.day_of_week_off_mask : ℤ)
  let out36 : ℤ :=
    Int.lor (pyShl (boolVal cfg.regional_swing_avoid_people) 1)
      (if cfg.regional_swing_position = 256 then 1 else 0)
  let out37 : ℤ :=
    if cfg.regional_swing_position = 256 then 0 else (cfg.regional_swing_position : ℤ)
  [0x7E, 0x7E, 37, 0x01, out4, out5, out6, out7, out8, out9,
   out10, out11, out12, out13, out14, out15, out16, out17, out18, out19,
   0, out21, out22, out23, 0, out25, out26, out27, out28, out29,
   out30, out31, out32, out33, out34, out35, out36, out37, 0, 0]

/-- `DeviceConfig.Encode` in state-passing form: the result together with the
receiver's state when the method returns.  Every mutation in the source body
targets the deep copy `cfg` or the output list, never `self`. -/
def EncodeSt (self : DeviceConfig) (update_on_off_timers : Bool) :
    Option (List ℤ) × DeviceConfig :=
  if !self.valid then (none, self)
  else
    let cfg := self.Copy
    let cfg := EncodeOffState cfg
    let cfg := EncodeFanState cfg
    let cfg := EncodeNoiseControl self cfg
    (some (SetChecksum (EncodeLayout self cfg update_on_off_timers)), self)

/-- `DeviceConfig.Encode`: the produced frame. -/
def Encode (self : DeviceConfig) (update_on_off_timers : Bool) : Option (List ℤ) :=
  (self.EncodeSt update_on_off_timers).1

/-- `DeviceConfig.EncodeRemoteTempUpdate`. -/
def EncodeRemoteTempUpdate (self : DeviceConfig) : Option (List ℤ) :=
  if !self.valid then none
  else
    let cfg := self.Copy
    let out4 : ℤ := if self.use_remote_temp_sensor then Int.lor 0 0x40 else 0
    let out25 : ℤ := (cfg.remote_temp_val : ℤ)
    some (SetChecksum
      [0x7E, 0x7E, 37, 0x01, out4, 0, 0, 0, 0, 0,
       0, 0, 0, 0, 0, 0, 0, 0, 0, 0,
       0, 0, 0, 0, 0, out25, 0, 0, 0, 0,
       0, 0, 0, 0, 0, 0, 0, 0, 0, 0])

end DeviceConfig

namespace DeviceSocket

/-- `DeviceSocket.CalcChecksum`: `none` for buffers shorter than 4 bytes,
otherwise `for i in range(2, length-1): cs += buf[i]` masked to 8 bits. -/
def CalcChecksum (buf : List ℕ) : Option ℕ :=
  if buf.length < 4 then none
  else some ((∑ i ∈ Finset.range (buf.length - 3), buf.getD (i + 2) 0) % 256)

/-- `DeviceSocket.SetChecksum`: writes `CalcChecksum` into the final byte
(`none` models the crash when `CalcChecksum` fails on a short buffer). -/
def SetChecksum (buf : List ℕ) : Option (List ℕ) :=
  (CalcChecksum buf).map (fun cs => buf.set (buf.length - 1) cs)

end DeviceSocket

/-- Embeds a 40-byte command frame at the byte offsets of a status frame:
every field `Decode` reads at status index `i` was written by `Encode` at
command index `i - 3`, so the command bytes are placed 3 positions later and
the buffer padded to the 51-byte minimum. -/
def alignStatus (out : List ℤ) : List ℕ :=
  List.replicate 3 0 ++ out.map Int.toNat ++ List.replicate 8 0

/-- The composition of the three encode-side normalization steps that
`Encode` applies to the deep copy before laying out bytes. -/
def DeviceConfig.EncodeNormalize (self : DeviceConfig) : DeviceConfig :=
  DeviceConfig.EncodeNoiseControl self
    (DeviceConfig.EncodeFanState (DeviceConfig.EncodeOffState self.Copy))

/-- A concrete valid, in-range device state, used to instantiate theorems
with hypotheses. -/
def sampleValid : DeviceConfig := { initConfig with
  valid := true
  is_on := true
  temp := 72
  temp_units := TempUnits.FAHRENHEIT
  mode := DeviceMode.HEAT
  light := true
  temp_display := TempDisplay.INDOOR
  intake_exhaust := ValveState.NONE
  fan_state := some FanState.LEVEL_5
  vertical_air_direction := VerticalAirDirection.CENTER_DOWN
  horizontal_air_direction := HorizontalAirDirection.CENTER
  timer_on_off_enable := true
  timer_off_enable := true
  minutes_until_on := 900
  minutes_until_off := 10
  clock := 1234
  day_of_week := 5
  on_time := 700
  off_time := 1400
  day_of_week_on_mask := 0x54
  day_of_week_off_mask := 0x2a
  timer_on_use_clock := 1
  timer_off_use_clock := 2 }

/-- The device state produced by a successful `Decode` of `buf` over prior
state `self0`, with the fallible enum constructions already resolved to
`m`, `iv`, `vad`, `had`, `td`, `hum`, `sct`.  This mirrors the assignment
sequence of `DeviceConfig.Decode`. -/
def decodedConfig (self0 : DeviceConfig) (buf : List ℕ) (m : DeviceMode) (iv : ValveState)
    (vad : VerticalAirDirection) (had : HorizontalAirDirection) (td : TempDisplay)
    (hum : HumidifyType) (sct : SleepCurveType) : DeviceConfig :=
  let b := fun i => buf.getD i 0
  let units := if GetBits (b 11) 7 1 ≠ 0 then TempUnits.FAHRENHEIT else TempUnits.CELSIUS
  let self := { self0 with
    is_on := GetBit (b 8) 7
    mode := m
    mode_mystery_bit_3 := GetBit (b 8) 3
    mode_mystery_bit_2 := GetBit (b 8) 2
    fan_speed_low_res := GetBits (b 8) 0 2
    timer_on_off_enable := GetBit (b 9) 3
    temp_units := units }
  let temp0 := self.DecodeTemp (GetBits (b 9) 4 4) (GetBits (b 11) 6 1)
  let self := { self with
    temp := if units = TempUnits.CELSIUS ∧ GetBit (b 14) 3 = true then temp0 + 0.5 else temp0 }
  let self := DeviceConfig.DecodeFanStateUnify { DeviceConfig.DecodeFanStateFlags self buf with
    intake_exhaust := iv
    fan_speed := (GetBits (b 22) 0 3 : ℤ) }
  let self := { self with
    purify := GetBit (b 10) 2
    light := GetBit (b 10) 1
    vertical_air_direction := vad
    horizontal_air_direction := had
    temp_display := td
    use_remote_temp_sensor := GetBit (b 13) 6
    humidify_type := hum
    heat_assist := GetBit (b 15) 7
    minutes_until_on := (((b 17) &&& 0x70) <<< 4) ||| b 16
    minutes_until_off := (((b 18) &&& 0x7F) <<< 4) ||| ((b 17) &&& 0x0F)
    timer_remote_flag := GetBit (b 17) 7
    timer_on_enable := GetBit (b 19) 5
    timer_off_enable := GetBit (b 19) 4
    sleep_curve_type := sct }
  let self := self.DecodeCustomSleepCurve buf
  { self with
    remote_temp_val := b 28
    clock := (((b 29) &&& 0x7f) <<< 8) ||| b 30
    sleep_curve_clock_invalid := GetBit (b 31) 7
    sleep_curve_clock := (((b 31) &&& 0x7f) <<< 8) ||| b 32
    timer_on_use_clock := GetBits (b 33) 6 2
    timer_off_use_clock := GetBits (b 33) 4 2
    off_time := (((b 33) &&& 7) <<< 8) ||| b 34
    on_time := (((b 35) &&& 7) <<< 8) ||| b 36
    day_of_week := GetBits (b 35) 5 3
    day_of_week_on_mask := b 37
    day_of_week_off_mask := b 38
    regional_swing_avoid_people := GetBit (b 39) 2
    regional_swing_position := if GetBit (b 39) 1 then 256 else b 40
    noise_control_enable := GetBit (b 42) 0
    noise_control_cooling := b 47
    noise_control_heating := b 48
    eco_mode := GetBit (b 49) 0
    valid := true }

/-! ### Generic lemmas about the Python arithmetic model -/

theorem intLor_natCast (a b : ℕ) : Int.lor (a : ℤ) (b : ℤ) = ((a ||| b : ℕ) : ℤ) := rfl

theorem intLand_natCast (a b : ℕ) : Int.land (a : ℤ) (b : ℤ) = ((a &&& b : ℕ) : ℤ) := rfl

theorem pyShl_natCast (a k : ℕ) : pyShl (a : ℤ) k = ((a <<< k : ℕ) : ℤ) := by
  unfold pyShl
  rw [Nat.shiftLeft_eq]
  push_cast
  ring

theorem pyShr_natCast (a k : ℕ) : pyShr (a : ℤ) k = ((a >>> k : ℕ) : ℤ) := by
  rw [Nat.shiftRight_eq_div_pow, Int.ofNat_fdiv]
  unfold pyShr
  congr 1
  push_cast
  ring

theorem boolVal_natCast (b : Bool) : boolVal b = ((b.toNat : ℕ) : ℤ) := by
  cases b <;> rfl

theorem getBits_lt (x p n : ℕ) : GetBits x p n < 2 ^ n := by
  unfold GetBits
  rw [Nat.one_shiftLeft, Nat.and_pow_two_sub_one_eq_mod]
  exact Nat.mod_lt _ (Nat.pos_pow_of_pos n (by omega))

theorem getBits_eq_div_mod (x p n : ℕ) : GetBits x p n = x / 2 ^ p % 2 ^ n := by
  unfold GetBits
  rw [Nat.one_shiftLeft, Nat.and_pow_two_sub_one_eq_mod, Nat.shiftRight_eq_div_pow]

theorem getD_set_of_ne {α : Type} (l : List α) (j i : ℕ) (v d : α) (h : j ≠ i) :
    (l.set j v).getD i d = l.getD i d := by
  simp [List.getD_eq_getElem?_getD, List.getElem?_set_ne h]

theorem getD_set_self {α : Type} (l : List α) (j : ℕ) (v d : α) (h : j < l.length) :
    (l.set j v).getD j d = v := by
  simp [List.getD_eq_getElem?_getD, List.getElem?_set_self h]

/-! ### Decode building blocks -/

/-- The 2-bit `ValveState` constructor argument never raises. -/
theorem valveState_fromValue_total : ∀ x, x < 4 → (ValveState.fromValue x).isSome = true := by
  decide

theorem decodeFanStateFlags_turbo (s : DeviceConfig) (buf : List ℕ) :
    (DeviceConfig.DecodeFanStateFlags s buf).turbo = GetBit (buf.getD 10 0) 0 := rfl

theorem decodeFanStateFlags_quiet_type (s : DeviceConfig) (buf : List ℕ) :
    (DeviceConfig.DecodeFanStateFlags s buf).quiet_type = GetBits (buf.getD 20 0) 2 2 := rfl

theorem decodeFanStateFlags_fan_state (s : DeviceConfig) (buf : List ℕ) :
    (DeviceConfig.DecodeFanStateFlags s buf).fan_state = s.fan_state := by
  unfold DeviceConfig.DecodeFanStateFlags
  dsimp only []
  split_ifs <;> rfl

/-- Field behaviour of the fan-state unification if/elif chain. -/
theorem decodeFanStateUnify_spec (s : DeviceConfig) :
    (DeviceConfig.DecodeFanStateUnify s).turbo = s.turbo ∧
    (DeviceConfig.DecodeFanStateUnify s).quiet_type = s.quiet_type ∧
    (DeviceConfig.DecodeFanStateUnify s).fan_speed = s.fan_speed ∧
    (s.turbo = true → (DeviceConfig.DecodeFanStateUnify s).fan_state = some FanState.TURBO) ∧
    (s.turbo = false → s.quiet_type = 1 →
      (DeviceConfig.DecodeFanStateUnify s).fan_state = some FanState.AUTO_QUIET) ∧
    (s.turbo = false → s.quiet_type = 2 →
      (DeviceConfig.DecodeFanStateUnify s).fan_state = some FanState.QUIET) ∧
    (s.turbo = false → s.quiet_type = 3 →
      (DeviceConfig.DecodeFanStateUnify s).fan_state = s.fan_state) ∧
    (s.turbo = false → s.quiet_type = 0 → 0 ≤ s.fan_speed → s.fan_speed ≤ 5 →
      (DeviceConfig.DecodeFanStateUnify s).fan_state =
        some ([FanState.AUTO, FanState.LEVEL_1, FanState.LEVEL_2, FanState.LEVEL_3,
          FanState.LEVEL_4, FanState.LEVEL_5].getD s.fan_speed.toNat FanState.UNKNOWN)) ∧
    (s.turbo = false → s.quiet_type = 0 → 5 < s.fan_speed →
      (DeviceConfig.DecodeFanStateUnify s).fan_state = some FanState.UNKNOWN) := by
  unfold DeviceConfig.DecodeFanStateUnify
  dsimp only []
  split_ifs with h1 h2 h3 h4 h5 <;>
    refine ⟨rfl, rfl, rfl, ?_, ?_, ?_, ?_, ?_, ?_⟩ <;> intros <;> simp_all <;> omega

theorem flags_mode (s : DeviceConfig) (buf : List ℕ) :
    (DeviceConfig.DecodeFanStateFlags s buf).mode = s.mode := by
  unfold DeviceConfig.DecodeFanStateFlags
  dsimp only []
  split_ifs <;> rfl

theorem flags_temp_units (s : DeviceConfig) (buf : List ℕ) :
    (DeviceConfig.DecodeFanStateFlags s buf).temp_units = s.temp_units := by
  unfold DeviceConfig.DecodeFanStateFlags
  dsimp only []
  split_ifs <;> rfl

theorem flags_temp (s : DeviceConfig) (buf : List ℕ) :
    (DeviceConfig.DecodeFanStateFlags s buf).temp = s.temp := by
  unfold DeviceConfig.DecodeFanStateFlags
  dsimp only []
  split_ifs <;> rfl

theorem flags_is_on (s : DeviceConfig) (buf : List ℕ) :
    (DeviceConfig.DecodeFanStateFlags s buf).is_on = s.is_on := by
  unfold DeviceConfig.DecodeFanStateFlags
  dsimp only []
  split_ifs <;> rfl

theorem unify_turbo (s : DeviceConfig) :
    (DeviceConfig.DecodeFanStateUnify s).turbo = s.turbo := by
  unfold DeviceConfig.DecodeFanStateUnify
  dsimp only []
  split_ifs <;> rfl

theorem unify_quiet_type (s : DeviceConfig) :
    (DeviceConfig.DecodeFanStateUnify s).quiet_type = s.quiet_type := by
  unfold DeviceConfig.DecodeFanStateUnify
  dsimp only []
  split_ifs <;> rfl

theorem unify_fan_speed (s : DeviceConfig) :
    (DeviceConfig.DecodeFanStateUnify s).fan_speed = s.fan_speed := by
  unfold DeviceConfig.DecodeFanStateUnify
  dsimp only []
  split_ifs <;> rfl

theorem unify_mode (s : DeviceConfig) :
    (DeviceConfig.DecodeFanStateUnify s).mode = s.mode := by
  unfold DeviceConfig.DecodeFanStateUnify
  dsimp only []
  split_ifs <;> rfl

theorem unify_temp_units (s : DeviceConfig) :
    (DeviceConfig.DecodeFanStateUnify s).temp_units = s.temp_units := by
  unfold DeviceConfig.DecodeFanStateUnify
  dsimp only []
  split_ifs <;> rfl

theorem unify_temp (s : DeviceConfig) :
    (DeviceConfig.DecodeFanStateUnify s).temp = s.temp := by
  unfold DeviceConfig.DecodeFanStateUnify
  dsimp only []
  split_ifs <;> rfl

theorem unify_is_on (s : DeviceConfig) :
    (DeviceConfig.DecodeFanStateUnify s).is_on = s.is_on := by
  unfold DeviceConfig.DecodeFanStateUnify
  dsimp only []
  split_ifs <;> rfl

theorem flags_timer_on_off_enable (s : DeviceConfig) (buf : List ℕ) :
    (DeviceConfig.DecodeFanStateFlags s buf).timer_on_off_enable = s.timer_on_off_enable := by
  unfold DeviceConfig.DecodeFanStateFlags
  dsimp only []
  split_ifs <;> rfl

theorem unify_timer_on_off_enable (s : DeviceConfig) :
    (DeviceConfig.DecodeFanStateUnify s).timer_on_off_enable = s.timer_on_off_enable := by
  unfold DeviceConfig.DecodeFanStateUnify
  dsimp only []
  split_ifs <;> rfl

theorem decodeFanState_total (s : DeviceConfig) (buf : List ℕ)
    (iv : ValveState) (hiv : ValveState.fromValue (GetBits (buf.getD 11 0) 4 2) = some iv) :
    s.DecodeFanState buf =
      some (DeviceConfig.DecodeFanStateUnify
        { DeviceConfig.DecodeFanStateFlags s buf with
          intake_exhaust := iv
          fan_speed := (GetBits (buf.getD 22 0) 0 3 : ℤ) }) := by
  unfold DeviceConfig.DecodeFanState
  rw [hiv]

/-- A successful `Decode` (each fallible enum construction resolved)
returns `True` together with `decodedConfig`. -/
theorem decode_eq_decodedConfig (self0 : DeviceConfig) (buf : List ℕ)
    (hlen : ¬ buf.length < 51)
    (m : DeviceMode) (hm : DeviceMode.fromValue (GetBits (buf.getD 8 0) 4 3) = some m)
    (iv : ValveState) (hiv : ValveState.fromValue (GetBits (buf.getD 11 0) 4 2) = some iv)
    (vad : VerticalAirDirection)
    (hvad : VerticalAirDirection.fromValue (GetBits (buf.getD 12 0) 4 4) = some vad)
    (had : HorizontalAirDirection)
    (hhad : HorizontalAirDirection.fromValue (GetBits (buf.getD 12 0) 0 4) = some had)
    (td : TempDisplay) (htd : TempDisplay.fromValue (GetBits (buf.getD 13 0) 4 2) = some td)
    (hum : HumidifyType) (hhum : HumidifyType.fromValue (GetBits (buf.getD 14 0) 4 3) = some hum)
    (sct : SleepCurveType)
    (hsct : (if GetBit (buf.getD 20 0) 7 = true then some SleepCurveType.SIESTA
             else SleepCurveType.fromValue ((((buf.getD 8 0) &&& 0x08) >>> 2) |||
               (((buf.getD 20 0) &&& 0x10) >>> 4))) = some sct) :
    self0.Decode buf = some (true, decodedConfig self0 buf m iv vad had td hum sct) := by
  unfold DeviceConfig.Decode decodedConfig
  rw [if_neg hlen]
  by_cases hb20 : GetBit (buf.getD 20 0) 7 = true
  · rw [if_pos hb20] at hsct
    injection hsct with hsct
    subst hsct
    simp only [bind, hm, decodeFanState_total _ buf iv hiv, hvad, hhad, htd, hhum,
      Option.some_bind, hb20, if_true]
    rfl
  · rw [if_neg hb20] at hsct
    simp only [bind, hm, decodeFanState_total _ buf iv hiv, hvad, hhad, htd, hhum, hsct,
      Option.some_bind, hb20, if_false]
    rfl

/-- Field values of the decoded state. -/
theorem decodedConfig_fields (self0 : DeviceConfig) (buf : List ℕ) (m : DeviceMode)
    (iv : ValveState) (vad : VerticalAirDirection) (had : HorizontalAirDirection)
    (td : TempDisplay) (hum : HumidifyType) (sct : SleepCurveType) :
    (decodedConfig self0 buf m iv vad had td hum sct).valid = true ∧
    (decodedConfig self0 buf m iv vad had td hum sct).is_on = GetBit (buf.getD 8 0) 7 ∧
    (decodedConfig self0 buf m iv vad had td hum sct).mode = m ∧
    (decodedConfig self0 buf m iv vad had td hum sct).temp_units =
      (if GetBits (buf.getD 11 0) 7 1 ≠ 0 then TempUnits.FAHRENHEIT else TempUnits.CELSIUS) ∧
    ((decodedConfig self0 buf m iv vad had td hum sct).temp_units = TempUnits.CELSIUS →
      (decodedConfig self0 buf m iv vad had td hum sct).temp =
        (if GetBit (buf.getD 14 0) 3 = true
          then min ((GetBits (buf.getD 9 0) 4 4 : ℚ) + 16) 30 + 0.5
          else min ((GetBits (buf.getD 9 0) 4 4 : ℚ) + 16) 30)) ∧
    ((decodedConfig self0 buf m iv vad had td hum sct).temp_units = TempUnits.FAHRENHEIT →
      (decodedConfig self0 buf m iv vad had td hum sct).temp =
        (if GetBits (buf.getD 9 0) 4 4 = 0 then (61 : ℚ)
          else min ((pytrunc ((((GetBits (buf.getD 9 0) 4 4 : ℚ) + 16) * 9 / 5) + 32 +
            (GetBits (buf.getD 11 0) 6 1 : ℚ)) : ℚ)) 86)) ∧
    (decodedConfig self0 buf m iv vad had td hum sct).turbo = GetBit (buf.getD 10 0) 0 ∧
    (decodedConfig self0 buf m iv vad had td hum sct).quiet_type = GetBits (buf.getD 20 0) 2 2 ∧
    (decodedConfig self0 buf m iv vad had td hum sct).fan_speed =
      (GetBits (buf.getD 22 0) 0 3 : ℤ) ∧
    (GetBit (buf.getD 10 0) 0 = true →
      (decodedConfig self0 buf m iv vad had td hum sct).fan_state = some FanState.TURBO) ∧
    (GetBit (buf.getD 10 0) 0 = false → GetBits (buf.getD 20 0) 2 2 = 1 →
      (decodedConfig self0 buf m iv vad had td hum sct).fan_state = some FanState.AUTO_QUIET) ∧
    (GetBit (buf.getD 10 0) 0 = false → GetBits (buf.getD 20 0) 2 2 = 2 →
      (decodedConfig self0 buf m iv vad had td hum sct).fan_state = some FanState.QUIET) ∧
    (GetBit (buf.getD 10 0) 0 = false → GetBits (buf.getD 20 0) 2 2 = 3 →
      (decodedConfig self0 buf m iv vad had td hum sct).fan_state = self0.fan_state) ∧
    (GetBit (buf.getD 10 0) 0 = false → GetBits (buf.getD 20 0) 2 2 = 0 →
      GetBits (buf.getD 22 0) 0 3 ≤ 5 →
      (decodedConfig self0 buf m iv vad had td hum sct).fan_state =
        some ([FanState.AUTO, FanState.LEVEL_1, FanState.LEVEL_2, FanState.LEVEL_3,
          FanState.LEVEL_4, FanState.LEVEL_5].getD (GetBits (buf.getD 22 0) 0 3)
            FanState.UNKNOWN)) ∧
    (GetBit (buf.getD 10 0) 0 = false → GetBits (buf.getD 20 0) 2 2 = 0 →
      5 < GetBits (buf.getD 22 0) 0 3 →
      (decodedConfig self0 buf m iv vad had td hum sct).fan_state = some FanState.UNKNOWN) ∧
    (decodedConfig self0 buf m iv vad had td hum sct).vertical_air_direction = vad ∧
    (decodedConfig self0 buf m iv vad had td hum sct).horizontal_air_direction = had ∧
    (decodedConfig self0 buf m iv vad had td hum sct).temp_display = td ∧
    (decodedConfig self0 buf m iv vad had td hum sct).humidify_type = hum ∧
    (decodedConfig self0 buf m iv vad had td hum sct).sleep_curve_type = sct ∧
    (decodedConfig self0 buf m iv vad had td hum sct).use_remote_temp_sensor =
      GetBit (buf.getD 13 0) 6 ∧
    (decodedConfig self0 buf m iv vad had td hum sct).heat_assist = GetBit (buf.getD 15 0) 7 ∧
    (decodedConfig self0 buf m iv vad had td hum sct).minutes_until_on =
      (((buf.getD 17 0) &&& 0x70) <<< 4) ||| buf.getD 16 0 ∧
    (decodedConfig self0 buf m iv vad had td hum sct).minutes_until_off =
      (((buf.getD 18 0) &&& 0x7F) <<< 4) ||| ((buf.getD 17 0) &&& 0x0F) ∧
    (decodedConfig self0 buf m iv vad had td hum sct).timer_remote_flag =
      GetBit (buf.getD 17 0) 7 ∧
    (decodedConfig self0 buf m iv vad had td hum sct).timer_on_enable =
      GetBit (buf.getD 19 0) 5 ∧
    (decodedConfig self0 buf m iv vad had td hum sct).timer_off_enable =
      GetBit (buf.getD 19 0) 4 ∧
    (decodedConfig self0 buf m iv vad had td hum sct).timer_on_off_enable =
      GetBit (buf.getD 9 0) 3 ∧
    (decodedConfig self0 buf m iv vad had td hum sct).clock =
      (((buf.getD 29 0) &&& 0x7f) <<< 8) ||| buf.getD 30 0 ∧
    (decodedConfig self0 buf m iv vad had td hum sct).sleep_curve_clock =
      (((buf.getD 31 0) &&& 0x7f) <<< 8) ||| buf.getD 32 0 ∧
    (decodedConfig self0 buf m iv vad had td hum sct).timer_on_use_clock =
      GetBits (buf.getD 33 0) 6 2 ∧
    (decodedConfig self0 buf m iv vad had td hum sct).timer_off_use_clock =
      GetBits (buf.getD 33 0) 4 2 ∧
    (decodedConfig self0 buf m iv vad had td hum sct).off_time =
      (((buf.getD 33 0) &&& 7) <<< 8) ||| buf.getD 34 0 ∧
    (decodedConfig self0 buf m iv vad had td hum sct).on_time =
      (((buf.getD 35 0) &&& 7) <<< 8) ||| buf.getD 36 0 ∧
    (decodedConfig self0 buf m iv vad had td hum sct).day_of_week =
      GetBits (buf.getD 35 0) 5 3 ∧
    (decodedConfig self0 buf m iv vad had td hum sct).day_of_week_on_mask = buf.getD 37 0 ∧
    (decodedConfig self0 buf m iv vad had td hum sct).day_of_week_off_mask = buf.getD 38 0 ∧
    (decodedConfig self0 buf m iv vad had td hum sct).regional_swing_position =
      (if GetBit (buf.getD 39 0) 1 = true then 256 else buf.getD 40 0) := by
  refine ⟨rfl, ?_, ?_, ?_, ?_, ?_, ?_, ?_, ?_, ?_, ?_, ?_, ?_, ?_, ?_, rfl, rfl, rfl, rfl,
    rfl, rfl, rfl, rfl, rfl, rfl, rfl, rfl, ?_, rfl, rfl, rfl, rfl, rfl, rfl, rfl, rfl, rfl,
    rfl⟩
  · simp only [decodedConfig, DeviceConfig.DecodeCustomSleepCurve, unify_is_on, flags_is_on]
  · simp only [decodedConfig, DeviceConfig.DecodeCustomSleepCurve, unify_mode, flags_mode]
  · simp only [decodedConfig, DeviceConfig.DecodeCustomSleepCurve, unify_temp_units, flags_temp_units]
  · intro hc
    simp only [decodedConfig, DeviceConfig.DecodeCustomSleepCurve, unify_temp_units, flags_temp_units] at hc
    simp only [decodedConfig, DeviceConfig.DecodeCustomSleepCurve, unify_temp, flags_temp]
    rw [hc]
    by_cases hb : GetBit (buf.getD 14 0) 3 = true <;>
      simp [DeviceConfig.DecodeTemp, hb]
  · intro hf
    simp only [decodedConfig, DeviceConfig.DecodeCustomSleepCurve, unify_temp_units, flags_temp_units] at hf
    simp only [decodedConfig, DeviceConfig.DecodeCustomSleepCurve, unify_temp, flags_temp]
    rw [hf]
    simp [DeviceConfig.DecodeTemp, Nat.le_zero]
  · simp only [decodedConfig, DeviceConfig.DecodeCustomSleepCurve, unify_turbo, decodeFanStateFlags_turbo]
  · simp only [decodedConfig, DeviceConfig.DecodeCustomSleepCurve, unify_quiet_type, decodeFanStateFlags_quiet_type]
  · simp only [decodedConfig, DeviceConfig.DecodeCustomSleepCurve, unify_fan_speed]
  · intro hb
    simp only [decodedConfig, DeviceConfig.DecodeCustomSleepCurve]
    exact (decodeFanStateUnify_spec _).2.2.2.1
      (by simp only [decodeFanStateFlags_turbo]; exact hb)
  · intro hb hq
    simp only [decodedConfig, DeviceConfig.DecodeCustomSleepCurve]
    exact (decodeFanStateUnify_spec _).2.2.2.2.1
      (by simp only [decodeFanStateFlags_turbo]; exact hb)
      (by simp only [decodeFanStateFlags_quiet_type]; exact hq)
  · intro hb hq
    simp only [decodedConfig, DeviceConfig.DecodeCustomSleepCurve]
    exact (decodeFanStateUnify_spec _).2.2.2.2.2.1
      (by simp only [decodeFanStateFlags_turbo]; exact hb)
      (by simp only [decodeFanStateFlags_quiet_type]; exact hq)
  · intro hb hq
    simp only [decodedConfig, DeviceConfig.DecodeCustomSleepCurve]
    rw [(decodeFanStateUnify_spec _).2.2.2.2.2.2.1
      (by simp only [decodeFanStateFlags_turbo]; exact hb)
      (by simp only [decodeFanStateFlags_quiet_type]; exact hq)]
    simp only [decodeFanStateFlags_fan_state]
  · intro hb hq hle
    simp only [decodedConfig, DeviceConfig.DecodeCustomSleepCurve]
    rw [(decodeFanStateUnify_spec _).2.2.2.2.2.2.2.1
      (by simp only [decodeFanStateFlags_turbo]; exact hb)
      (by simp only [decodeFanStateFlags_quiet_type]; exact hq)
      (by positivity)
      (by show ((GetBits (buf.getD 22 0) 0 3 : ℕ) : ℤ) ≤ 5; exact_mod_cast hle)]
    norm_num
  · intro hb hq hlt
    simp only [decodedConfig, DeviceConfig.DecodeCustomSleepCurve]
    exact (decodeFanStateUnify_spec _).2.2.2.2.2.2.2.2
      (by simp only [decodeFanStateFlags_turbo]; exact hb)
      (by simp only [decodeFanStateFlags_quiet_type]; exact hq)
      (by show (5 : ℤ) < ((GetBits (buf.getD 22 0) 0 3 : ℕ) : ℤ); exact_mod_cast hlt)
  · simp only [decodedConfig, DeviceConfig.DecodeCustomSleepCurve, unify_timer_on_off_enable, flags_timer_on_off_enable]

theorem deviceMode_fromValue_total : ∀ x, x < 8 → (DeviceMode.fromValue x).isSome = true := by
  decide

theorem tempDisplay_fromValue_total : ∀ x, x < 4 → (TempDisplay.fromValue x).isSome = true := by
  decide

theorem vad_fromValue_isSome_iff :
    ∀ x, x < 16 → ((VerticalAirDirection.fromValue x).isSome = true ↔ x ≤ 6) := by
  decide

theorem had_fromValue_isSome_iff :
    ∀ x, x < 16 → ((HorizontalAirDirection.fromValue x).isSome = true ↔ x ≤ 6) := by
  decide

theorem hum_fromValue_isSome_iff :
    ∀ x, x < 8 → ((HumidifyType.fromValue x).isSome = true ↔ x ≤ 6) := by
  decide

theorem sct_fromValue_total (x y : ℕ) :
    (if GetBit y 7 = true then some SleepCurveType.SIESTA
      else SleepCurveType.fromValue (((x &&& 0x08) >>> 2) |||
        ((y &&& 0x10) >>> 4))).isSome = true := by
  by_cases hb : GetBit y 7 = true
  · simp [hb]
  · rw [if_neg hb]
    rw [show (0x08 : ℕ) = 2 ^ 3 from rfl, Nat.and_two_pow,
      show (0x10 : ℕ) = 2 ^ 4 from rfl, Nat.and_two_pow]
    cases hx : x.testBit 3 <;> cases hy : y.testBit 4 <;> decide

theorem decode_none_of_raise (self0 : DeviceConfig) (buf : List ℕ)
    (hlen : ¬ buf.length < 51) :
    (VerticalAirDirection.fromValue (GetBits (buf.getD 12 0) 4 4) = none →
      self0.Decode buf = none) ∧
    (HorizontalAirDirection.fromValue (GetBits (buf.getD 12 0) 0 4) = none →
      self0.Decode buf = none) ∧
    (HumidifyType.fromValue (GetBits (buf.getD 14 0) 4 3) = none →
      self0.Decode buf = none) := by
  obtain ⟨m, hm⟩ : ∃ m, DeviceMode.fromValue (GetBits (buf.getD 8 0) 4 3) = some m :=
    Option.isSome_iff_exists.mp
      (deviceMode_fromValue_total _ (by simpa using getBits_lt (buf.getD 8 0) 4 3))
  obtain ⟨iv, hiv⟩ : ∃ iv, ValveState.fromValue (GetBits (buf.getD 11 0) 4 2) = some iv :=
    Option.isSome_iff_exists.mp
      (valveState_fromValue_total _ (by simpa using getBits_lt (buf.getD 11 0) 4 2))
  obtain ⟨td, htd⟩ : ∃ td, TempDisplay.fromValue (GetBits (buf.getD 13 0) 4 2) = some td :=
    Option.isSome_iff_exists.mp
      (tempDisplay_fromValue_total _ (by simpa using getBits_lt (buf.getD 13 0) 4 2))
  refine ⟨?_, ?_, ?_⟩
  · intro h
    unfold DeviceConfig.Decode
    rw [if_neg hlen]
    simp only [bind, hm, decodeFanState_total _ buf iv hiv, h, Option.some_bind,
      Option.none_bind]
  · intro h
    rcases hvad : VerticalAirDirection.fromValue (GetBits (buf.getD 12 0) 4 4) with _ | vad
    · unfold DeviceConfig.Decode
      rw [if_neg hlen]
      simp only [bind, hm, decodeFanState_total _ buf iv hiv, hvad, Option.some_bind,
        Option.none_bind]
    · unfold DeviceConfig.Decode
      rw [if_neg hlen]
      simp only [bind, hm, decodeFanState_total _ buf iv hiv, hvad, h, Option.some_bind,
        Option.none_bind]
  · intro h
    rcases hvad : VerticalAirDirection.fromValue (GetBits (buf.getD 12 0) 4 4) with _ | vad
    · unfold DeviceConfig.Decode
      rw [if_neg hlen]
      simp only [bind, hm, decodeFanState_total _ buf iv hiv, hvad, Option.some_bind,
        Option.none_bind]
    rcases hhad : HorizontalAirDirection.fromValue (GetBits (buf.getD 12 0) 0 4) with _ | had
    · unfold DeviceConfig.Decode
      rw [if_neg hlen]
      simp only [bind, hm, decodeFanState_total _ buf iv hiv, hvad, hhad, Option.some_bind,
        Option.none_bind]
    · unfold DeviceConfig.Decode
      rw [if_neg hlen]
      simp only [bind, hm, decodeFanState_total _ buf iv hiv, hvad, hhad, htd, h,
        Option.some_bind, Option.none_bind]

/-! ### Encode building blocks -/

theorem encode_eq (self : DeviceConfig) (u : Bool) (hv : self.valid = true) :
    self.Encode u = some (DeviceConfig.SetChecksum
      (DeviceConfig.EncodeLayout self (DeviceConfig.EncodeNormalize self) u)) := by
  unfold DeviceConfig.Encode DeviceConfig.EncodeSt DeviceConfig.EncodeNormalize DeviceConfig.Copy
  rw [hv]
  rfl

theorem encodeLayout_length (self cfg : DeviceConfig) (u : Bool) :
    (DeviceConfig.EncodeLayout self cfg u).length = 40 := rfl

theorem setChecksum_getD (out : List ℤ) (i : ℕ) (hi : i + 1 < out.length) :
    (DeviceConfig.SetChecksum out).getD i 0 = out.getD i 0 := by
  unfold DeviceConfig.SetChecksum
  exact getD_set_of_ne _ _ _ _ _ (by omega)

theorem encodeLayout_getD_7 (self cfg : DeviceConfig) (u : Bool) :
    (DeviceConfig.EncodeLayout self cfg u).getD 7 0 =
      (if cfg.mode = DeviceMode.COOL ∨ cfg.mode = DeviceMode.DRY then
        Int.lor (Int.lor (Int.lor (pyShl (boolVal cfg.purify) 2) (pyShl (boolVal cfg.light) 1))
          (pyShl (boolVal cfg.turbo) 0)) (pyShl (boolVal cfg.x_fan) 3)
      else if cfg.mode = DeviceMode.HEAT then
        Int.lor (Int.lor (Int.lor (pyShl (boolVal cfg.purify) 2) (pyShl (boolVal cfg.light) 1))
          (pyShl (boolVal cfg.turbo) 0)) (pyShl (boolVal cfg.x_fan_for_heat) 3)
      else
        Int.lor (Int.lor (pyShl (boolVal cfg.purify) 2) (pyShl (boolVal cfg.light) 1))
          (pyShl (boolVal cfg.turbo) 0)) := rfl

theorem encodeLayout_getD_19 (self cfg : DeviceConfig) (u : Bool) :
    (DeviceConfig.EncodeLayout self cfg u).getD 19 0 = cfg.fan_speed := rfl

theorem encodeLayout_getD_36 (self cfg : DeviceConfig) (u : Bool) :
    (DeviceConfig.EncodeLayout self cfg u).getD 36 0 =
      Int.lor (pyShl (boolVal cfg.regional_swing_avoid_people) 1)
        (if cfg.regional_swing_position = 256 then 1 else 0) := rfl

theorem encodeLayout_getD_37 (self cfg : DeviceConfig) (u : Bool) :
    (DeviceConfig.EncodeLayout self cfg u).getD 37 0 =
      (if cfg.regional_swing_position = 256 then 0
       else (cfg.regional_swing_position : ℤ)) := rfl

theorem encodeOffState_shape (cfg : DeviceConfig) :
    ∃ a b c d e, DeviceConfig.EncodeOffState cfg = { cfg with
      intake_exhaust := a
      quiet_type := b
      sleep_curve_type := c
      humidify_type := d
      purify := e } := by
  unfold DeviceConfig.EncodeOffState
  split_ifs
  · exact ⟨cfg.intake_exhaust, cfg.quiet_type, cfg.sleep_curve_type, cfg.humidify_type,
      cfg.purify, rfl⟩
  · exact ⟨_, _, _, _, _, rfl⟩

theorem encodeFanState_shape (cfg : DeviceConfig) :
    ∃ a b c, DeviceConfig.EncodeFanState cfg = { cfg with
      turbo := a
      quiet_type := b
      fan_speed := c } := by
  unfold DeviceConfig.EncodeFanState
  rcases h : cfg.fan_state with _ | fs
  · dsimp only []
    refine ⟨cfg.turbo, cfg.quiet_type, cfg.fan_speed, ?_⟩
    rw [← h]
  · dsimp only []
    split_ifs <;> exact ⟨_, _, _, rfl⟩

theorem encodeNoiseControl_shape (self cfg : DeviceConfig) :
    ∃ a b, DeviceConfig.EncodeNoiseControl self cfg = { cfg with
      fan_speed := a
      turbo := b } := by
  unfold DeviceConfig.EncodeNoiseControl
  dsimp only []
  split_ifs <;> exact ⟨_, _, rfl⟩

theorem encodeNormalize_shape (self : DeviceConfig) :
    ∃ tb qt fs ie sc hm pu, DeviceConfig.EncodeNormalize self = { self with
      turbo := tb
      quiet_type := qt
      fan_speed := fs
      intake_exhaust := ie
      sleep_curve_type := sc
      humidify_type := hm
      purify := pu } := by
  obtain ⟨a1, b1, c1, d1, e1, h1⟩ := encodeOffState_shape self
  obtain ⟨a2, b2, c2, h2⟩ := encodeFanState_shape (DeviceConfig.EncodeOffState self)
  obtain ⟨a3, b3, h3⟩ := encodeNoiseControl_shape self
    (DeviceConfig.EncodeFanState (DeviceConfig.EncodeOffState self))
  unfold DeviceConfig.EncodeNormalize DeviceConfig.Copy
  rw [h3, h2, h1]
  exact ⟨_, _, _, _, _, _, _, rfl⟩

theorem normalize_mode (self : DeviceConfig) :
    (DeviceConfig.EncodeNormalize self).mode = self.mode := by
  obtain ⟨tb, qt, fs, ie, sc, hm, pu, h⟩ := encodeNormalize_shape self
  rw [h]

theorem encodeOffFan_mode (self : DeviceConfig) :
    (DeviceConfig.EncodeFanState (DeviceConfig.EncodeOffState self)).mode = self.mode := by
  obtain ⟨a1, b1, c1, d1, e1, h1⟩ := encodeOffState_shape self
  obtain ⟨a2, b2, c2, h2⟩ := encodeFanState_shape (DeviceConfig.EncodeOffState self)
  rw [h2, h1]

theorem encodeOffFan_noise_enable (self : DeviceConfig) :
    (DeviceConfig.EncodeFanState (DeviceConfig.EncodeOffState self)).noise_control_enable =
      self.noise_control_enable := by
  obtain ⟨a1, b1, c1, d1, e1, h1⟩ := encodeOffState_shape self
  obtain ⟨a2, b2, c2, h2⟩ := encodeFanState_shape (DeviceConfig.EncodeOffState self)
  rw [h2, h1]

theorem normalize_noise_heat (self : DeviceConfig) (hnc : self.noise_control_enable = true)
    (hm : self.mode = DeviceMode.HEAT) :
    (DeviceConfig.EncodeNormalize self).fan_speed =
      (DeviceConfig.FanSpeedForNoiseLevel self.noise_control_heating : ℤ) ∧
    (DeviceConfig.EncodeNormalize self).turbo = false := by
  unfold DeviceConfig.EncodeNormalize DeviceConfig.Copy DeviceConfig.EncodeNoiseControl
  simp [encodeOffFan_noise_enable, encodeOffFan_mode, hnc, hm]

theorem normalize_noise_cool (self : DeviceConfig) (hnc : self.noise_control_enable = true)
    (hm : self.mode = DeviceMode.COOL) :
    (DeviceConfig.EncodeNormalize self).fan_speed =
      (DeviceConfig.FanSpeedForNoiseLevel self.noise_control_cooling : ℤ) ∧
    (DeviceConfig.EncodeNormalize self).turbo = false := by
  unfold DeviceConfig.EncodeNormalize DeviceConfig.Copy DeviceConfig.EncodeNoiseControl
  simp [encodeOffFan_noise_enable, encodeOffFan_mode, hnc, hm]

theorem normalize_noise_other (self : DeviceConfig)
    (h1 : self.mode ≠ DeviceMode.HEAT) (h2 : self.mode ≠ DeviceMode.COOL) :
    (DeviceConfig.EncodeNormalize self).fan_speed =
      (DeviceConfig.EncodeFanState (DeviceConfig.EncodeOffState self)).fan_speed := by
  unfold DeviceConfig.EncodeNormalize DeviceConfig.Copy DeviceConfig.EncodeNoiseControl
  rw [encodeOffFan_mode]
  dsimp only []
  split_ifs with ha hb hc <;> first
    | rfl
    | (exact absurd hb h1)
    | (exact absurd hc h2)
    | (rw [encodeOffFan_mode] at hb; exact absurd hb h2)

theorem decode_success_inversion (self0 : DeviceConfig) (buf : List ℕ)
    (hlen : ¬ buf.length < 51) (p : Bool × DeviceConfig)
    (hd : self0.Decode buf = some p) :
    GetBits (buf.getD 12 0) 4 4 ≤ 6 ∧ GetBits (buf.getD 12 0) 0 4 ≤ 6 ∧
    GetBits (buf.getD 14 0) 4 3 ≤ 6 := by
  by_cases h1 : GetBits (buf.getD 12 0) 4 4 ≤ 6
  · by_cases h2 : GetBits (buf.getD 12 0) 0 4 ≤ 6
    · by_cases h3 : GetBits (buf.getD 14 0) 4 3 ≤ 6
      · exact ⟨h1, h2, h3⟩
      · have hn : HumidifyType.fromValue (GetBits (buf.getD 14 0) 4 3) = none :=
          Option.not_isSome_iff_eq_none.mp (fun hs => h3
            ((hum_fromValue_isSome_iff _
              (by simpa using getBits_lt (buf.getD 14 0) 4 3)).mp hs))
        rw [(decode_none_of_raise self0 buf hlen).2.2 hn] at hd
        cases hd
    · have hn : HorizontalAirDirection.fromValue (GetBits (buf.getD 12 0) 0 4) = none :=
        Option.not_isSome_iff_eq_none.mp (fun hs => h2
          ((had_fromValue_isSome_iff _
            (by simpa using getBits_lt (buf.getD 12 0) 0 4)).mp hs))
      rw [(decode_none_of_raise self0 buf hlen).2.1 hn] at hd
      cases hd
  · have hn : VerticalAirDirection.fromValue (GetBits (buf.getD 12 0) 4 4) = none :=
      Option.not_isSome_iff_eq_none.mp (fun hs => h1
        ((vad_fromValue_isSome_iff _
          (by simpa using getBits_lt (buf.getD 12 0) 4 4)).mp hs))
    rw [(decode_none_of_raise self0 buf hlen).1 hn] at hd
    cases hd

theorem decodedConfig_regional (self0 : DeviceConfig) (buf : List ℕ) (m : DeviceMode)
    (iv : ValveState) (vad : VerticalAirDirection) (had : HorizontalAirDirection)
    (td : TempDisplay) (hum : HumidifyType) (sct : SleepCurveType) :
    (decodedConfig self0 buf m iv vad had td hum sct).regional_swing_position =
      (if GetBit (buf.getD 39 0) 1 = true then 256 else buf.getD 40 0) := rfl

theorem land_one_of_turbo_false_ext (p l t x : Bool) (ht : t = false) :
    Int.land (Int.lor (Int.lor (Int.lor (pyShl (boolVal p) 2) (pyShl (boolVal l) 1))
      (pyShl (boolVal t) 0)) (pyShl (boolVal x) 3)) 1 = 0 := by
  subst ht
  cases p <;> cases l <;> cases x <;> decide

theorem land_one_of_turbo_false (p l t : Bool) (ht : t = false) :
    Int.land (Int.lor (Int.lor (pyShl (boolVal p) 2) (pyShl (boolVal l) 1))
      (pyShl (boolVal t) 0)) 1 = 0 := by
  subst ht
  cases p <;> cases l <;> decide

/-! ### Round-trip building blocks -/

theorem alignStatus_length (out : List ℤ) : (alignStatus out).length = out.length + 11 := by
  simp [alignStatus]

theorem alignStatus_getD (out : List ℤ) (i : ℕ) (h : i < out.length) :
    (alignStatus out).getD (i + 3) 0 = (out.getD i 0).toNat := by
  unfold alignStatus
  rw [List.append_assoc]
  rw [List.getD_eq_getElem?_getD,
    List.getElem?_append_right (by simp only [List.length_replicate]; omega)]
  simp only [List.length_replicate, Nat.add_sub_cancel]
  rw [List.getElem?_append_left (by simpa using h), List.getElem?_map,
    List.getElem?_eq_getElem h]
  rw [List.getD_eq_getElem?_getD, List.getElem?_eq_getElem h]
  rfl

theorem mode_value_spec (m : DeviceMode) (h : m ≠ DeviceMode.UNKNOWN) :
    ∃ n : ℕ, m.value = (n : ℤ) ∧ n < 8 ∧ DeviceMode.fromValue n = some m := by
  cases m
  · exact absurd rfl h
  all_goals refine ⟨_, rfl, ?_, ?_⟩ <;> decide

theorem vad_value_spec (v : VerticalAirDirection) :
    ∃ n : ℕ, v.value = (n : ℤ) ∧ n < 7 ∧ VerticalAirDirection.fromValue n = some v := by
  cases v <;> refine ⟨_, rfl, ?_, ?_⟩ <;> decide

theorem had_value_spec (v : HorizontalAirDirection) :
    ∃ n : ℕ, v.value = (n : ℤ) ∧ n < 7 ∧ HorizontalAirDirection.fromValue n = some v := by
  cases v <;> refine ⟨_, rfl, ?_, ?_⟩ <;> decide

theorem hum_value_spec (v : HumidifyType) (h : v ≠ HumidifyType.UNKNOWN) :
    ∃ n : ℕ, v.value = (n : ℤ) ∧ n < 7 := by
  cases v
  · exact absurd rfl h
  all_goals refine ⟨_, rfl, ?_⟩ <;> decide

theorem intake_value_spec (v : ValveState) (h : v ≠ ValveState.UNKNOWN) :
    ∃ n : ℕ, v.value = (n : ℤ) ∧ n < 4 := by
  cases v
  · exact absurd rfl h
  all_goals refine ⟨_, rfl, ?_⟩ <;> decide

theorem ldiff_zero_eq (n : ℕ) : Nat.ldiff n 0 = n := by
  unfold Nat.ldiff
  rw [Nat.bitwise_zero_right]
  simp

theorem neg_one_land_two : Int.land (-1) 2 = 2 := by
  show Int.ofNat (Nat.ldiff 2 0) = 2
  rw [ldiff_zero_eq]
  rfl

theorem neg_one_land_one : Int.land (-1) 1 = 1 := by
  show Int.ofNat (Nat.ldiff 1 0) = 1
  rw [ldiff_zero_eq]
  rfl

theorem sleep_land_spec (v : SleepCurveType) :
    ∃ n : ℕ, Int.land v.value 2 = (n : ℤ) ∧ n < 3 := by
  cases v <;> first
    | exact ⟨2, neg_one_land_two, by norm_num⟩
    | (refine ⟨_, rfl, ?_⟩; decide)

theorem sleep_land1_spec (v : SleepCurveType) :
    ∃ n : ℕ, Int.land v.value 1 = (n : ℤ) ∧ n < 2 := by
  cases v <;> first
    | exact ⟨1, neg_one_land_one, by norm_num⟩
    | (refine ⟨_, rfl, ?_⟩; decide)

theorem bits_byte5 : ∀ a < 4, ∀ i < 2, ∀ m < 8, ∀ s < 3, ∀ t < 2,
    GetBits (((a ||| i <<< 7) ||| m <<< 4) ||| (s <<< 2 ||| t <<< 2)) 4 3 = m ∧
    GetBit (((a ||| i <<< 7) ||| m <<< 4) ||| (s <<< 2 ||| t <<< 2)) 7 = decide (i = 1) := by
  decide

theorem bits_byte6 : ∀ e < 15, ∀ t < 2,
    GetBits ((e <<< 4) ||| (t <<< 3)) 4 4 = e ∧
    GetBit ((e <<< 4) ||| (t <<< 3)) 3 = decide (t = 1) := by
  decide

theorem bits_byte7_ext : ∀ p < 2, ∀ l < 2, ∀ t < 2, ∀ x < 2,
    GetBit (((p <<< 2 ||| l <<< 1) ||| t) ||| x <<< 3) 0 = decide (t = 1) := by
  decide

theorem bits_byte7_base : ∀ p < 2, ∀ l < 2, ∀ t < 2,
    GetBit ((p <<< 2 ||| l <<< 1) ||| t) 0 = decide (t = 1) := by
  decide

theorem bits_byte8 : ∀ f < 2, ∀ u < 2, ∀ i < 4,
    GetBits (((f <<< 6 ||| u <<< 7) ||| i <<< 4) ||| 2) 7 1 = u ∧
    GetBits (((f <<< 6 ||| u <<< 7) ||| i <<< 4) ||| 2) 6 1 = f := by
  decide

theorem bits_byte9 : ∀ v < 7, ∀ h < 7,
    GetBits ((v <<< 4) ||| h) 4 4 = v ∧ GetBits ((v <<< 4) ||| h) 0 4 = h := by
  decide

theorem bits_byte11 : ∀ c < 2, ∀ h < 7,
    GetBit ((c <<< 3) ||| (h <<< 4)) 3 = decide (c = 1) ∧
    GetBits ((c <<< 3) ||| (h <<< 4)) 4 3 = h := by
  decide

set_option maxRecDepth 4000 in
theorem mask_700_chunk : ∀ hi < 8, ∀ lo < 256,
    ((hi * 256 + lo) &&& 0x700) >>> 4 = hi * 16 := by
  decide

theorem mask_700 (m : ℕ) (h : m < 2048) : (m &&& 0x700) >>> 4 = m / 256 * 16 := by
  have h1 : m / 256 < 8 := by omega
  have h2 : m % 256 < 256 := Nat.mod_lt _ (by norm_num)
  have h3 := mask_700_chunk (m / 256) h1 (m % 256) h2
  rw [show m / 256 * 256 + m % 256 = m from by omega] at h3
  exact h3

set_option maxRecDepth 4000 in
theorem mask_7f0_chunk : ∀ hi < 8, ∀ lo < 256,
    ((hi * 256 + lo) &&& 0x7f0) >>> 4 = hi * 16 + lo / 16 := by
  decide

theorem mask_7f0 (m : ℕ) (h : m < 2048) : (m &&& 0x7f0) >>> 4 = m / 16 := by
  have h1 : m / 256 < 8 := by omega
  have h2 : m % 256 < 256 := Nat.mod_lt _ (by norm_num)
  have h3 := mask_7f0_chunk (m / 256) h1 (m % 256) h2
  rw [show m / 256 * 256 + m % 256 = m from by omega] at h3
  rw [h3]
  omega

theorem bits_byte14 : ∀ a < 8, ∀ b < 16, ∀ r < 2,
    ((((a * 16) ||| b) ||| r <<< 7) &&& 0x70) <<< 4 = a * 256 ∧
    (((a * 16) ||| b) ||| r <<< 7) &&& 0xF = b ∧
    GetBit (((a * 16) ||| b) ||| r <<< 7) 7 = decide (r = 1) := by
  decide

theorem bits_byte16 : ∀ a < 2, ∀ b < 2,
    GetBit ((a <<< 5) ||| (b <<< 4)) 5 = decide (a = 1) ∧
    GetBit ((a <<< 5) ||| (b <<< 4)) 4 = decide (b = 1) := by
  decide

theorem bits_byte17_siesta : ∀ q < 3, GetBits ((q <<< 2) ||| 128) 2 2 = q := by
  decide

theorem bits_byte17_plain : ∀ q < 3, ∀ s < 2, GetBits ((q <<< 2) ||| (s <<< 4)) 2 2 = q := by
  decide

theorem bits_byte19 : ∀ f < 8, GetBits f 0 3 = f := by
  decide

theorem bits_byte30 : ∀ a < 4, ∀ b < 4, ∀ o < 8,
    GetBits ((a <<< 6 ||| b <<< 4) ||| o) 6 2 = a ∧
    GetBits ((a <<< 6 ||| b <<< 4) ||| o) 4 2 = b ∧
    ((a <<< 6 ||| b <<< 4) ||| o) &&& 7 = o := by
  decide

theorem bits_byte32 : ∀ d < 8, ∀ o < 8,
    GetBits ((d <<< 5) ||| o) 5 3 = d ∧ ((d <<< 5) ||| o) &&& 7 = o := by
  decide

theorem or_mul_add_256 (hi lo : ℕ) (h : lo < 256) : (hi * 256) ||| lo = hi * 256 + lo := by
  rw [show hi * 256 = 2 ^ 8 * hi by ring, ← Nat.mul_add_lt_is_or h]

theorem or_mul_add_16 (hi lo : ℕ) (h : lo < 16) : (hi * 16) ||| lo = hi * 16 + lo := by
  rw [show hi * 16 = 2 ^ 4 * hi by ring, ← Nat.mul_add_lt_is_or h]

theorem and_255_eq_mod (m : ℕ) : m &&& 255 = m % 256 := by
  have := Nat.and_pow_two_sub_one_eq_mod m 8
  norm_num at this
  exact this

theorem and_15_eq_mod (m : ℕ) : m &&& 15 = m % 16 := by
  have := Nat.and_pow_two_sub_one_eq_mod m 4
  norm_num at this
  exact this

theorem and_127_of_lt (m : ℕ) (h : m < 128) : m &&& 0x7f = m := by
  have h2 := Nat.and_pow_two_sub_one_eq_mod m 7
  norm_num at h2
  rw [h2, Nat.mod_eq_of_lt h]

theorem shiftRight8_eq_div (m : ℕ) : m >>> 8 = m / 256 := by
  rw [Nat.shiftRight_eq_div_pow]

theorem hiLo_recompose (m : ℕ) (h : m < 32768) :
    ((m / 256) <<< 8) ||| (m % 256) = m := by
  rw [Nat.shiftLeft_eq]
  rw [show m / 256 * 2 ^ 8 = m / 256 * 256 by norm_num]
  rw [or_mul_add_256 _ _ (Nat.mod_lt _ (by norm_num))]
  omega

theorem tempF_codec : ∀ k < 26,
    0 ≤ min (max (pytrunc ((((k + 61 : ℕ) : ℚ) - 32) / 9 * 5 - 15.5)) 0) 14 ∧
    min (max (pytrunc ((((k + 61 : ℕ) : ℚ) - 32) / 9 * 5 - 15.5)) 0) 14 ≤ 14 ∧
    ((if (min (max (pytrunc ((((k + 61 : ℕ) : ℚ) - 32) / 9 * 5 - 15.5)) 0) 14).toNat = 0
        then (61 : ℚ)
      else min ((pytrunc (((((min (max (pytrunc ((((k + 61 : ℕ) : ℚ) - 32) / 9 * 5 - 15.5))
          0) 14).toNat : ℚ) + 16) * 9 / 5) + 32 +
        (((decide (((k + 61 : ℕ) : ℚ) ∈
            ([63, 65, 67, 70, 72, 74, 76, 79, 81, 83, 85] : List ℚ))).toNat : ℕ) : ℚ)) : ℚ))
        86) = ((k + 61 : ℕ) : ℚ)) := by
  intro k hk
  interval_cases k <;> norm_num [pytrunc, Rat.floor_def', Int.toNat]

theorem tempC_codec_whole : ∀ k < 15,
    0 ≤ pytrunc (((k + 16 : ℕ) : ℚ)) - 16 ∧
    pytrunc (((k + 16 : ℕ) : ℚ)) - 16 ≤ 14 ∧
    min (((pytrunc (((k + 16 : ℕ) : ℚ)) - 16).toNat : ℚ) + 16) 30 = ((k + 16 : ℕ) : ℚ) ∧
    decide ((((k + 16 : ℕ) : ℚ)) - ((pytrunc (((k + 16 : ℕ) : ℚ)) : ℤ) : ℚ) = 0.5)
      = false := by
  intro k hk
  interval_cases k <;> norm_num [pytrunc, Rat.floor_def', Int.toNat]

theorem tempC_codec_half : ∀ k < 15,
    0 ≤ pytrunc (((k + 16 : ℕ) : ℚ) + 0.5) - 16 ∧
    pytrunc (((k + 16 : ℕ) : ℚ) + 0.5) - 16 ≤ 14 ∧
    min (((pytrunc (((k + 16 : ℕ) : ℚ) + 0.5) - 16).toNat : ℚ) + 16) 30 + 0.5
      = ((k + 16 : ℕ) : ℚ) + 0.5 ∧
    decide ((((k + 16 : ℕ) : ℚ) + 0.5) -
      ((pytrunc (((k + 16 : ℕ) : ℚ) + 0.5) : ℤ) : ℚ) = 0.5) = true := by
  intro k hk
  interval_cases k <;> norm_num [pytrunc, Rat.floor_def', Int.toNat]

theorem encodeNoiseControl_id (self c : DeviceConfig) (h : c.noise_control_enable = false) :
    DeviceConfig.EncodeNoiseControl self c = c := by
  unfold DeviceConfig.EncodeNoiseControl
  rw [h]
  rfl

theorem encodeFanState_values (cfg : DeviceConfig) (v : FanState)
    (h : cfg.fan_state = some v) :
    (DeviceConfig.EncodeFanState cfg).turbo = decide (v = FanState.TURBO) ∧
    (DeviceConfig.EncodeFanState cfg).quiet_type =
      (if v = FanState.AUTO_QUIET then 1 else if v = FanState.QUIET then 2 else 0) ∧
    (DeviceConfig.EncodeFanState cfg).fan_speed =
      (if v ∈ [FanState.AUTO, FanState.LEVEL_1, FanState.LEVEL_2, FanState.LEVEL_3,
               FanState.LEVEL_4, FanState.LEVEL_5] then v.value else 0) := by
  unfold DeviceConfig.EncodeFanState
  rw [h]
  rcases v <;> simp [FanState.value]

theorem normalize_fan_values (self : DeviceConfig) (v : FanState)
    (hfan : self.fan_state = some v) (hnc : self.noise_control_enable = false) :
    (DeviceConfig.EncodeNormalize self).turbo = decide (v = FanState.TURBO) ∧
    (DeviceConfig.EncodeNormalize self).quiet_type =
      (if v = FanState.AUTO_QUIET then 1 else if v = FanState.QUIET then 2 else 0) ∧
    (DeviceConfig.EncodeNormalize self).fan_speed =
      (if v ∈ [FanState.AUTO, FanState.LEVEL_1, FanState.LEVEL_2, FanState.LEVEL_3,
               FanState.LEVEL_4, FanState.LEVEL_5] then v.value else 0) := by
  have hoff_fan : (DeviceConfig.EncodeOffState self).fan_state = some v := by
    obtain ⟨a, b, c, d, e, h⟩ := encodeOffState_shape self
    rw [h]
    exact hfan
  have hfs_nc : (DeviceConfig.EncodeFanState
      (DeviceConfig.EncodeOffState self)).noise_control_enable = false := by
    rw [encodeOffFan_noise_enable]
    exact hnc
  unfold DeviceConfig.EncodeNormalize DeviceConfig.Copy
  rw [encodeNoiseControl_id _ _ hfs_nc]
  exact encodeFanState_values _ v hoff_fan

/-! ### Per-index values of the command frame layout -/

theorem encodeLayout_getD_5 (self cfg : DeviceConfig) (u : Bool) :
    (DeviceConfig.EncodeLayout self cfg u).getD 5 0 =
      Int.lor
        (Int.lor (Int.lor (pyShr (cfg.fan_speed + 1) 1) (pyShl (boolVal cfg.is_on) 7))
          (pyShl cfg.mode.value 4))
        (Int.lor (pyShl (Int.land cfg.sleep_curve_type.value 2) 2)
          (pyShl (boolVal cfg.mode_mystery_bit_2) 2)) := rfl

theorem encodeLayout_getD_6 (self cfg : DeviceConfig) (u : Bool) :
    (DeviceConfig.EncodeLayout self cfg u).getD 6 0 =
      Int.lor (pyShl (cfg.EncodeTemp cfg.temp) 4)
        (pyShl (boolVal cfg.timer_on_off_enable) 3) := rfl

theorem encodeLayout_getD_8 (self cfg : DeviceConfig) (u : Bool) :
    (DeviceConfig.EncodeLayout self cfg u).getD 8 0 =
      Int.lor
        (Int.lor
          (Int.lor
            (pyShl (boolVal
              (DeviceConfig.EncodeTempFahrenheitFractionalBit cfg.temp cfg.temp_units)) 6)
            (pyShl (if cfg.temp_units = TempUnits.FAHRENHEIT then 1 else 0) 7))
          (pyShl cfg.intake_exhaust.value 4))
        0x02 := rfl

theorem encodeLayout_getD_9 (self cfg : DeviceConfig) (u : Bool) :
    (DeviceConfig.EncodeLayout self cfg u).getD 9 0 =
      Int.lor (pyShl cfg.vertical_air_direction.value 4)
        cfg.horizontal_air_direction.value := rfl

theorem encodeLayout_getD_11 (self cfg : DeviceConfig) (u : Bool) :
    (DeviceConfig.EncodeLayout self cfg u).getD 11 0 =
      Int.lor
        (pyShl (boolVal
          (DeviceConfig.EncodeTempCelciusFractionalBit cfg.temp cfg.temp_units)) 3)
        (pyShl cfg.humidify_type.value 4) := rfl

theorem encodeLayout_getD_13 (self cfg : DeviceConfig) (u : Bool) :
    (DeviceConfig.EncodeLayout self cfg u).getD 13 0 =
      ((cfg.minutes_until_on &&& 0xff : ℕ) : ℤ) := rfl

theorem encodeLayout_getD_14 (self cfg : DeviceConfig) (u : Bool) :
    (DeviceConfig.EncodeLayout self cfg u).getD 14 0 =
      Int.lor
        (Int.lor (((cfg.minutes_until_on &&& 0x700) >>> 4 : ℕ) : ℤ)
          ((cfg.minutes_until_off &&& 0x0f : ℕ) : ℤ))
        (pyShl (boolVal cfg.timer_remote_flag) 7) := rfl

theorem encodeLayout_getD_15 (self cfg : DeviceConfig) (u : Bool) :
    (DeviceConfig.EncodeLayout self cfg u).getD 15 0 =
      (((cfg.minutes_until_off &&& 0x7f0) >>> 4 : ℕ) : ℤ) := rfl

theorem encodeLayout_getD_16 (self cfg : DeviceConfig) (u : Bool) :
    (DeviceConfig.EncodeLayout self cfg u).getD 16 0 =
      Int.lor (pyShl (boolVal cfg.timer_on_enable) 5)
        (pyShl (boolVal cfg.timer_off_enable) 4) := rfl

theorem encodeLayout_getD_17 (self cfg : DeviceConfig) (u : Bool) :
    (DeviceConfig.EncodeLayout self cfg u).getD 17 0 =
      (if cfg.sleep_curve_type = SleepCurveType.SIESTA then
        Int.lor (pyShl (cfg.quiet_type : ℤ) 2) cfg.sleep_curve_type.value
      else Int.lor (pyShl (cfg.quiet_type : ℤ) 2)
        (pyShl (Int.land cfg.sleep_curve_type.value 1) 4)) := rfl

theorem encodeLayout_getD_26 (self cfg : DeviceConfig) (u : Bool) :
    (DeviceConfig.EncodeLayout self cfg u).getD 26 0 = ((cfg.clock >>> 8 : ℕ) : ℤ) := rfl

theorem encodeLayout_getD_27 (self cfg : DeviceConfig) (u : Bool) :
    (DeviceConfig.EncodeLayout self cfg u).getD 27 0 = ((cfg.clock &&& 0xff : ℕ) : ℤ) := rfl

theorem encodeLayout_getD_28 (self cfg : DeviceConfig) (u : Bool) :
    (DeviceConfig.EncodeLayout self cfg u).getD 28 0 =
      ((cfg.sleep_curve_clock >>> 8 : ℕ) : ℤ) := rfl

theorem encodeLayout_getD_29 (self cfg : DeviceConfig) (u : Bool) :
    (DeviceConfig.EncodeLayout self cfg u).getD 29 0 =
      ((cfg.sleep_curve_clock &&& 0xff : ℕ) : ℤ) := rfl

theorem encodeLayout_getD_30 (self cfg : DeviceConfig) (u : Bool) :
    (DeviceConfig.EncodeLayout self cfg u).getD 30 0 =
      (((cfg.timer_on_use_clock <<< 6) ||| (cfg.timer_off_use_clock <<< 4)
        ||| (cfg.off_time >>> 8) : ℕ) : ℤ) := rfl

theorem encodeLayout_getD_31 (self cfg : DeviceConfig) (u : Bool) :
    (DeviceConfig.EncodeLayout self cfg u).getD 31 0 = ((cfg.off_time &&& 0xff : ℕ) : ℤ) := rfl

theorem encodeLayout_getD_32 (self cfg : DeviceConfig) (u : Bool) :
    (DeviceConfig.EncodeLayout self cfg u).getD 32 0 =
      (((cfg.day_of_week <<< 5) ||| (cfg.on_time >>> 8) : ℕ) : ℤ) := rfl

theorem encodeLayout_getD_33 (self cfg : DeviceConfig) (u : Bool) :
    (DeviceConfig.EncodeLayout self cfg u).getD 33 0 = ((cfg.on_time &&& 0xff : ℕ) : ℤ) := rfl

theorem encodeLayout_getD_34 (self cfg : DeviceConfig) (u : Bool) :
    (DeviceConfig.EncodeLayout self cfg u).getD 34 0 = (cfg.day_of_week_on_mask : ℤ) := rfl

theorem encodeLayout_getD_35 (self cfg : DeviceConfig) (u : Bool) :
    (DeviceConfig.EncodeLayout self cfg u).getD 35 0 = (cfg.day_of_week_off_mask : ℤ) := rfl

/-! ### Normalization facts used by the round trip -/

theorem decide_toNat_eq_one (b : Bool) : decide (b.toNat = 1) = b := by
  cases b <;> rfl

theorem normalize_intake (self : DeviceConfig) (h : self.intake_exhaust ≠ ValveState.UNKNOWN) :
    (DeviceConfig.EncodeNormalize self).intake_exhaust ≠ ValveState.UNKNOWN := by
  obtain ⟨a3, b3, h3⟩ := encodeNoiseControl_shape self
    (DeviceConfig.EncodeFanState (DeviceConfig.EncodeOffState self))
  obtain ⟨a2, b2, c2, h2⟩ := encodeFanState_shape (DeviceConfig.EncodeOffState self)
  unfold DeviceConfig.EncodeNormalize DeviceConfig.Copy
  rw [h3]
  show (DeviceConfig.EncodeFanState (DeviceConfig.EncodeOffState self)).intake_exhaust ≠ _
  rw [h2]
  show (DeviceConfig.EncodeOffState self).intake_exhaust ≠ _
  unfold DeviceConfig.EncodeOffState
  by_cases hon : self.is_on
  · rw [if_pos hon]
    exact h
  · rw [if_neg hon]
    exact fun hcon => ValveState.noConfusion hcon

theorem normalize_hum (self : DeviceConfig) (h : self.humidify_type ≠ HumidifyType.UNKNOWN) :
    (DeviceConfig.EncodeNormalize self).humidify_type ≠ HumidifyType.UNKNOWN := by
  obtain ⟨a3, b3, h3⟩ := encodeNoiseControl_shape self
    (DeviceConfig.EncodeFanState (DeviceConfig.EncodeOffState self))
  obtain ⟨a2, b2, c2, h2⟩ := encodeFanState_shape (DeviceConfig.EncodeOffState self)
  unfold DeviceConfig.EncodeNormalize DeviceConfig.Copy
  rw [h3]
  show (DeviceConfig.EncodeFanState (DeviceConfig.EncodeOffState self)).humidify_type ≠ _
  rw [h2]
  show (DeviceConfig.EncodeOffState self).humidify_type ≠ _
  unfold DeviceConfig.EncodeOffState
  by_cases hon : self.is_on
  · rw [if_pos hon]
    exact h
  · rw [if_neg hon]
    exact fun hcon => HumidifyType.noConfusion hcon

theorem encodeTemp_F (cfg : DeviceConfig) (h : cfg.temp_units = TempUnits.FAHRENHEIT)
    (t : ℚ) :
    cfg.EncodeTemp t = min (max (pytrunc ((t - 32) / 9 * 5 - 15.5)) 0) 14 := by
  unfold DeviceConfig.EncodeTemp
  rw [h]
  simp

theorem encodeTemp_C (cfg : DeviceConfig) (h : cfg.temp_units = TempUnits.CELSIUS) (t : ℚ) :
    cfg.EncodeTemp t = pytrunc t - 16 := by
  unfold DeviceConfig.EncodeTemp
  rw [h]
  simp

theorem fahrFrac_F (t : ℚ) :
    DeviceConfig.EncodeTempFahrenheitFractionalBit t TempUnits.FAHRENHEIT =
      decide (t ∈ ([63, 65, 67, 70, 72, 74, 76, 79, 81, 83, 85] : List ℚ)) := by
  unfold DeviceConfig.EncodeTempFahrenheitFractionalBit
  simp

theorem fahrFrac_C (t : ℚ) :
    DeviceConfig.EncodeTempFahrenheitFractionalBit t TempUnits.CELSIUS = false := by
  unfold DeviceConfig.EncodeTempFahrenheitFractionalBit
  simp

theorem celFrac_C (t : ℚ) :
    DeviceConfig.EncodeTempCelciusFractionalBit t TempUnits.CELSIUS =
      decide (t - ((pytrunc t : ℤ) : ℚ) = 0.5) := by
  unfold DeviceConfig.EncodeTempCelciusFractionalBit
  simp

theorem celFrac_F (t : ℚ) :
    DeviceConfig.EncodeTempCelciusFractionalBit t TempUnits.FAHRENHEIT = false := by
  unfold DeviceConfig.EncodeTempCelciusFractionalBit
  simp

/-! ### Claim theorems -/

/-- C2 (corrected): decoding a buffer of length at least 51 never fails on
the 3-bit mode field (all eight raw values are defined) nor on any 2-bit
field, but an undefined 4-bit vertical/horizontal air-direction value (7-15)
or the undefined 3-bit humidify value 7 raises a `ValueError` that aborts
the decode instead of continuing with a sentinel; decoding succeeds exactly
when all three of those fields are at most 6. -/
theorem decode_unrecognized_enum_behavior (self0 : DeviceConfig) (buf : List ℕ)
    (hlen : 51 ≤ buf.length) :
    (∀ x, x < 8 → (DeviceMode.fromValue x).isSome = true) ∧
    ((∃ d, self0.Decode buf = some (true, d)) ↔
      (GetBits (buf.getD 12 0) 4 4 ≤ 6 ∧ GetBits (buf.getD 12 0) 0 4 ≤ 6 ∧
       GetBits (buf.getD 14 0) 4 3 ≤ 6)) := by
  have hlen2 : ¬ buf.length < 51 := by omega
  refine ⟨deviceMode_fromValue_total, ⟨?_, ?_⟩⟩
  · rintro ⟨d, hd⟩
    exact decode_success_inversion self0 buf hlen2 (true, d) hd
  · rintro ⟨h1, h2, h3⟩
    obtain ⟨m, hm⟩ : ∃ m, DeviceMode.fromValue (GetBits (buf.getD 8 0) 4 3) = some m :=
      Option.isSome_iff_exists.mp
        (deviceMode_fromValue_total _ (by simpa using getBits_lt (buf.getD 8 0) 4 3))
    obtain ⟨iv, hiv⟩ : ∃ iv, ValveState.fromValue (GetBits (buf.getD 11 0) 4 2) = some iv :=
      Option.isSome_iff_exists.mp
        (valveState_fromValue_total _ (by simpa using getBits_lt (buf.getD 11 0) 4 2))
    obtain ⟨td, htd⟩ : ∃ td, TempDisplay.fromValue (GetBits (buf.getD 13 0) 4 2) = some td :=
      Option.isSome_iff_exists.mp
        (tempDisplay_fromValue_total _ (by simpa using getBits_lt (buf.getD 13 0) 4 2))
    obtain ⟨vad, hvad⟩ : ∃ vad, VerticalAirDirection.fromValue (GetBits (buf.getD 12 0) 4 4)
        = some vad :=
      Option.isSome_iff_exists.mp
        ((vad_fromValue_isSome_iff _ (by simpa using getBits_lt (buf.getD 12 0) 4 4)).mpr h1)
    obtain ⟨had, hhad⟩ : ∃ had, HorizontalAirDirection.fromValue (GetBits (buf.getD 12 0) 0 4)
        = some had :=
      Option.isSome_iff_exists.mp
        ((had_fromValue_isSome_iff _ (by simpa using getBits_lt (buf.getD 12 0) 0 4)).mpr h2)
    obtain ⟨hum, hhum⟩ : ∃ hum, HumidifyType.fromValue (GetBits (buf.getD 14 0) 4 3)
        = some hum :=
      Option.isSome_iff_exists.mp
        ((hum_fromValue_isSome_iff _ (by simpa using getBits_lt (buf.getD 14 0) 4 3)).mpr h3)
    obtain ⟨sct, hsct⟩ : ∃ sct, (if GetBit (buf.getD 20 0) 7 = true
        then some SleepCurveType.SIESTA
        else SleepCurveType.fromValue ((((buf.getD 8 0) &&& 0x08) >>> 2) |||
          (((buf.getD 20 0) &&& 0x10) >>> 4))) = some sct :=
      Option.isSome_iff_exists.mp (sct_fromValue_total (buf.getD 8 0) (buf.getD 20 0))
    exact ⟨_, decode_eq_decodedConfig self0 buf hlen2 m hm iv hiv vad hvad had hhad td htd
      hum hhum sct hsct⟩

/-- C2 counterexample: 51-byte status frames whose vertical or horizontal
air-direction nibble is 7, or whose humidify bits are 7, make `Decode` raise
(modelled as `none`) rather than continue with a sentinel value. -/
theorem decode_raises_on_unrecognized_direction :
    ((List.replicate 51 0).set 12 0x70).length = 51 ∧
    initConfig.Decode ((List.replicate 51 0).set 12 0x70) = none ∧
    initConfig.Decode ((List.replicate 51 0).set 12 7) = none ∧
    initConfig.Decode ((List.replicate 51 0).set 14 0x70) = none := by
  refine ⟨by decide, by decide, by decide, by decide⟩

/-- C2 witness: an all-zero 51-byte buffer (every enum field defined)
decodes successfully. -/
theorem decode_unrecognized_enum_behavior_witness :
    ∃ d, initConfig.Decode (List.replicate 51 0) = some (true, d) :=
  (decode_unrecognized_enum_behavior initConfig (List.replicate 51 0) (by decide)).2.mpr
    (by decide)

/-- C9: encoding writes `regional_swing_position` 256 as a zero position
byte with the spillover bit set, any value 0-255 directly with the
spillover bit clear; and decoding maps the status-frame spillover bit to
256, otherwise to the position byte. -/
theorem regional_swing_sentinel (self : DeviceConfig) (u : Bool) (hv : self.valid = true)
    (out : List ℤ) (he : self.Encode u = some out) :
    (self.regional_swing_position = 256 →
      out.getD 37 0 = 0 ∧ Int.land (out.getD 36 0) 1 = 1) ∧
    (self.regional_swing_position ≤ 255 →
      out.getD 37 0 = (self.regional_swing_position : ℤ) ∧
      Int.land (out.getD 36 0) 1 = 0) ∧
    (∀ (d0 d : DeviceConfig) (buf : List ℕ), 51 ≤ buf.length →
      d0.Decode buf = some (true, d) →
      d.regional_swing_position =
        (if GetBit (buf.getD 39 0) 1 = true then 256 else buf.getD 40 0)) := by
  rw [encode_eq self u hv] at he
  injection he with he
  subst he
  obtain ⟨tb, qt, fs, ie, sc, hm2, pu, hsh⟩ := encodeNormalize_shape self
  have h37 : (DeviceConfig.SetChecksum
      (DeviceConfig.EncodeLayout self (DeviceConfig.EncodeNormalize self) u)).getD 37 0 =
      (if self.regional_swing_position = 256 then 0
       else (self.regional_swing_position : ℤ)) := by
    rw [setChecksum_getD _ 37 (by rw [encodeLayout_length]; omega), encodeLayout_getD_37, hsh]
  have h36 : (DeviceConfig.SetChecksum
      (DeviceConfig.EncodeLayout self (DeviceConfig.EncodeNormalize self) u)).getD 36 0 =
      Int.lor (pyShl (boolVal self.regional_swing_avoid_people) 1)
        (if self.regional_swing_position = 256 then 1 else 0) := by
    rw [setChecksum_getD _ 36 (by rw [encodeLayout_length]; omega), encodeLayout_getD_36, hsh]
  refine ⟨?_, ?_, ?_⟩
  · intro h256
    rw [h37, h36, if_pos h256, if_pos h256]
    refine ⟨rfl, ?_⟩
    rcases hb : self.regional_swing_avoid_people <;> decide
  · intro h255
    have hne : ¬ self.regional_swing_position = 256 := by omega
    rw [h37, h36, if_neg hne, if_neg hne]
    refine ⟨rfl, ?_⟩
    rcases hb : self.regional_swing_avoid_people <;> decide
  · intro d0 d buf hl hd
    have hlen2 : ¬ buf.length < 51 := by omega
    obtain ⟨h1, h2, h3⟩ := decode_success_inversion d0 buf hlen2 (true, d) hd
    obtain ⟨m, hm⟩ : ∃ m, DeviceMode.fromValue (GetBits (buf.getD 8 0) 4 3) = some m :=
      Option.isSome_iff_exists.mp
        (deviceMode_fromValue_total _ (by simpa using getBits_lt (buf.getD 8 0) 4 3))
    obtain ⟨iv, hiv⟩ : ∃ iv, ValveState.fromValue (GetBits (buf.getD 11 0) 4 2) = some iv :=
      Option.isSome_iff_exists.mp
        (valveState_fromValue_total _ (by simpa using getBits_lt (buf.getD 11 0) 4 2))
    obtain ⟨td2, htd⟩ : ∃ td2, TempDisplay.fromValue (GetBits (buf.getD 13 0) 4 2)
        = some td2 :=
      Option.isSome_iff_exists.mp
        (tempDisplay_fromValue_total _ (by simpa using getBits_lt (buf.getD 13 0) 4 2))
    obtain ⟨vad, hvad⟩ : ∃ vad, VerticalAirDirection.fromValue (GetBits (buf.getD 12 0) 4 4)
        = some vad :=
      Option.isSome_iff_exists.mp
        ((vad_fromValue_isSome_iff _ (by simpa using getBits_lt (buf.getD 12 0) 4 4)).mpr h1)
    obtain ⟨had, hhad⟩ : ∃ had, HorizontalAirDirection.fromValue (GetBits (buf.getD 12 0) 0 4)
        = some had :=
      Option.isSome_iff_exists.mp
        ((had_fromValue_isSome_iff _ (by simpa using getBits_lt (buf.getD 12 0) 0 4)).mpr h2)
    obtain ⟨hum, hhum⟩ : ∃ hum, HumidifyType.fromValue (GetBits (buf.getD 14 0) 4 3)
        = some hum :=
      Option.isSome_iff_exists.mp
        ((hum_fromValue_isSome_iff _ (by simpa using getBits_lt (buf.getD 14 0) 4 3)).mpr h3)
    obtain ⟨sct, hsct⟩ : ∃ sct, (if GetBit (buf.getD 20 0) 7 = true
        then some SleepCurveType.SIESTA
        else SleepCurveType.fromValue ((((buf.getD 8 0) &&& 0x08) >>> 2) |||
          (((buf.getD 20 0) &&& 0x10) >>> 4))) = some sct :=
      Option.isSome_iff_exists.mp (sct_fromValue_total (buf.getD 8 0) (buf.getD 20 0))
    rw [decode_eq_decodedConfig d0 buf hlen2 m hm iv hiv vad hvad had hhad td2 htd
      hum hhum sct hsct] at hd
    simp only [Option.some.injEq, Prod.mk.injEq, true_and] at hd
    rw [← hd]
    exact decodedConfig_regional d0 buf m iv vad had td2 hum sct

/-- C9 witness: the sentinel and the direct-value cases at concrete states. -/
theorem regional_swing_sentinel_witness :
    ∃ out, ({ sampleValid with regional_swing_position := 256 } : DeviceConfig).Encode true
        = some out ∧
      out.getD 37 0 = 0 ∧ Int.land (out.getD 36 0) 1 = 1 := by
  obtain ⟨out, hout⟩ : ∃ out,
      ({ sampleValid with regional_swing_position := 256 } : DeviceConfig).Encode true
        = some out :=
    Option.isSome_iff_exists.mp (by decide)
  exact ⟨out, hout, (regional_swing_sentinel _ true rfl out hout).1 rfl⟩

/-- C4: when noise control is enabled the noise-control step runs after the
fan-state normalization and is the final authority on the encoded fan
speed: HEAT uses the heating threshold, COOL the cooling threshold, the
turbo bit is forced clear, other modes keep the fan-state-derived speed,
and the step function is 38→5, 36→4, 33→3, 31→2, 29→1, below→0. -/
theorem encode_noise_control_final_authority (self : DeviceConfig) (u : Bool)
    (hv : self.valid = true) (hnc : self.noise_control_enable = true)
    (out : List ℤ) (he : self.Encode u = some out) :
    (self.mode = DeviceMode.HEAT →
      out.getD 19 0 = (DeviceConfig.FanSpeedForNoiseLevel self.noise_control_heating : ℤ) ∧
      Int.land (out.getD 7 0) 1 = 0) ∧
    (self.mode = DeviceMode.COOL →
      out.getD 19 0 = (DeviceConfig.FanSpeedForNoiseLevel self.noise_control_cooling : ℤ) ∧
      Int.land (out.getD 7 0) 1 = 0) ∧
    (self.mode ≠ DeviceMode.HEAT → self.mode ≠ DeviceMode.COOL →
      out.getD 19 0 =
        (DeviceConfig.EncodeFanState (DeviceConfig.EncodeOffState self)).fan_speed) ∧
    DeviceConfig.FanSpeedForNoiseLevel 38 = 5 ∧
    DeviceConfig.FanSpeedForNoiseLevel 36 = 4 ∧
    DeviceConfig.FanSpeedForNoiseLevel 33 = 3 ∧
    DeviceConfig.FanSpeedForNoiseLevel 31 = 2 ∧
    DeviceConfig.FanSpeedForNoiseLevel 29 = 1 ∧
    DeviceConfig.FanSpeedForNoiseLevel 28 = 0 := by
  rw [encode_eq self u hv] at he
  injection he with he
  subst he
  have h19 : (DeviceConfig.SetChecksum
      (DeviceConfig.EncodeLayout self (DeviceConfig.EncodeNormalize self) u)).getD 19 0 =
      (DeviceConfig.EncodeNormalize self).fan_speed := by
    rw [setChecksum_getD _ 19 (by rw [encodeLayout_length]; omega), encodeLayout_getD_19]
  have h7 := setChecksum_getD (DeviceConfig.EncodeLayout self
    (DeviceConfig.EncodeNormalize self) u) 7 (by rw [encodeLayout_length]; omega)
  rw [encodeLayout_getD_7] at h7
  refine ⟨?_, ?_, ?_, by decide, by decide, by decide, by decide, by decide, by decide⟩
  · intro hmo
    obtain ⟨hfs, htb⟩ := normalize_noise_heat self hnc hmo
    refine ⟨by rw [h19, hfs], ?_⟩
    rw [h7, normalize_mode, hmo, if_neg (by decide), if_pos rfl]
    exact land_one_of_turbo_false_ext _ _ _ _ htb
  · intro hmo
    obtain ⟨hfs, htb⟩ := normalize_noise_cool self hnc hmo
    refine ⟨by rw [h19, hfs], ?_⟩
    rw [h7, normalize_mode, hmo, if_pos (by left; rfl)]
    exact land_one_of_turbo_false_ext _ _ _ _ htb
  · intro hne1 hne2
    rw [h19, normalize_noise_other self hne1 hne2]

/-- C4 witness: with noise control on, HEAT mode and a 38 dB heating
threshold, a caller-set TURBO fan state is overridden: fan speed 5, turbo
bit clear. -/
theorem encode_noise_control_final_authority_witness :
    ∃ out, ({ sampleValid with
        noise_control_enable := true
        noise_control_heating := 38
        fan_state := some FanState.TURBO } : DeviceConfig).Encode true = some out ∧
      out.getD 19 0 = 5 ∧ Int.land (out.getD 7 0) 1 = 0 := by
  obtain ⟨out, hout⟩ : ∃ out, ({ sampleValid with
      noise_control_enable := true
      noise_control_heating := 38
      fan_state := some FanState.TURBO } : DeviceConfig).Encode true = some out :=
    Option.isSome_iff_exists.mp (by decide)
  have h := (encode_noise_control_final_authority _ true rfl rfl out hout).1 rfl
  exact ⟨out, hout, h.1.trans (by decide), h.2⟩



/-- C5: temperature codec bounds.  In Fahrenheit units `EncodeTemp` always
lands in [0, 14]; `DecodeTemp` never exceeds 86 and returns exactly 61
whenever `upper <= 0`; in Celsius units `DecodeTemp` is `min (upper+16) 30`. -/
theorem temp_codec_clamps (cfg : DeviceConfig) (t : ℚ) (u l : ℕ) :
    (cfg.temp_units = TempUnits.FAHRENHEIT →
      (0 ≤ cfg.EncodeTemp t ∧ cfg.EncodeTemp t ≤ 14) ∧
      cfg.DecodeTemp u l ≤ 86 ∧
      (u ≤ 0 → cfg.DecodeTemp u l = 61)) ∧
    (cfg.temp_units = TempUnits.CELSIUS →
      cfg.DecodeTemp u l = min ((u : ℚ) + 16) 30) := by
  constructor
  · intro hf
    have hne : ¬ cfg.temp_units = TempUnits.CELSIUS := by rw [hf]; intro h; cases h
    refine ⟨⟨?_, ?_⟩, ?_, ?_⟩
    · unfold DeviceConfig.EncodeTemp
      rw [if_neg hne]
      exact le_min (le_max_right _ _) (by norm_num)
    · unfold DeviceConfig.EncodeTemp
      rw [if_neg hne]
      exact min_le_right _ _
    · unfold DeviceConfig.DecodeTemp
      rw [if_neg hne]
      split
      · norm_num
      · exact min_le_right _ _
    · intro hu
      unfold DeviceConfig.DecodeTemp
      rw [if_neg hne, if_pos hu]
  · intro hc
    unfold DeviceConfig.DecodeTemp
    rw [if_pos hc]

/-- C5 witness: the clamps evaluated at a concrete Fahrenheit state. -/
theorem temp_codec_clamps_witness :
    (0 ≤ sampleValid.EncodeTemp 72 ∧ sampleValid.EncodeTemp 72 ≤ 14) ∧
    sampleValid.DecodeTemp 15 1 ≤ 86 ∧
    sampleValid.DecodeTemp 0 1 = 61 ∧
    ({ initConfig with temp_units := TempUnits.CELSIUS } : DeviceConfig).DecodeTemp 9 0
      = min ((9 : ℚ) + 16) 30 := by
  refine ⟨((temp_codec_clamps sampleValid 72 15 1).1 rfl).1,
          ((temp_codec_clamps sampleValid 72 15 1).1 rfl).2.1,
          ((temp_codec_clamps sampleValid 72 0 1).1 rfl).2.2 (by decide),
          (temp_codec_clamps { initConfig with temp_units := TempUnits.CELSIUS } 72 9 0).2 rfl⟩

/-- C6: an invalid snapshot (never populated by a successful decode) makes
both `Encode` and `EncodeRemoteTempUpdate` fail closed: they return `None`
and never emit a frame. -/
theorem encode_invalid_fails_closed (cfg : DeviceConfig) (u : Bool) (h : cfg.valid = false) :
    cfg.Encode u = none ∧ cfg.EncodeRemoteTempUpdate = none := by
  unfold DeviceConfig.Encode DeviceConfig.EncodeSt DeviceConfig.EncodeRemoteTempUpdate
  rw [h]
  exact ⟨rfl, rfl⟩

/-- C6 witness: the freshly-initialised config is invalid and encodes to nothing. -/
theorem encode_invalid_fails_closed_witness :
    initConfig.Encode true = none ∧ initConfig.EncodeRemoteTempUpdate = none :=
  encode_invalid_fails_closed initConfig true rfl

/-- C7: `Encode` works on a private deep copy: after the call the receiver
equals its value before the call, field for field. -/
theorem encode_receiver_unchanged (cfg : DeviceConfig) (u : Bool) (h : cfg.valid = true) :
    (cfg.EncodeSt u).2 = cfg := by
  unfold DeviceConfig.EncodeSt
  rw [h]
  rfl

/-- C7 witness: the receiver is returned unchanged on a concrete valid state
(one whose fan/quiet/turbo fields the encoder does rewrite on its copy). -/
theorem encode_receiver_unchanged_witness : (sampleValid.EncodeSt true).2 = sampleValid :=
  encode_receiver_unchanged sampleValid true rfl

/-- C10: in the encode fan-state normalization, `fan_state = None` passes the
raw turbo/quiet_type/fan_speed triplet through unchanged, while any present
unified fan state (including `FanState.UNKNOWN`, produced e.g. by decoding a
raw fan_speed of 6 or 7) overwrites the triplet; for `UNKNOWN` the result is
turbo=false, quiet_type=0, fan_speed=0. -/
theorem encode_fan_state_none_vs_unknown (cfg : DeviceConfig) :
    (cfg.fan_state = none → DeviceConfig.EncodeFanState cfg = cfg) ∧
    (∀ v, cfg.fan_state = some v →
      (DeviceConfig.EncodeFanState cfg).turbo = decide (v = FanState.TURBO) ∧
      (DeviceConfig.EncodeFanState cfg).quiet_type =
        (if v = FanState.AUTO_QUIET then 1 else if v = FanState.QUIET then 2 else 0) ∧
      (DeviceConfig.EncodeFanState cfg).fan_speed =
        (if v ∈ [FanState.AUTO, FanState.LEVEL_1, FanState.LEVEL_2, FanState.LEVEL_3,
                 FanState.LEVEL_4, FanState.LEVEL_5] then v.value else 0)) ∧
    (cfg.fan_state = some FanState.UNKNOWN →
      (DeviceConfig.EncodeFanState cfg).turbo = false ∧
      (DeviceConfig.EncodeFanState cfg).quiet_type = 0 ∧
      (DeviceConfig.EncodeFanState cfg).fan_speed = 0) := by
  refine ⟨?_, ?_, ?_⟩
  · intro h
    unfold DeviceConfig.EncodeFanState
    rw [h]
  · intro v h
    unfold DeviceConfig.EncodeFanState
    rw [h]
    rcases v <;> simp [FanState.value]
  · intro h
    unfold DeviceConfig.EncodeFanState
    rw [h]
    simp

/-- C10 witness: the triplet passthrough for `None` and the reset for
`UNKNOWN`, on concrete states. -/
theorem encode_fan_state_none_vs_unknown_witness :
    DeviceConfig.EncodeFanState initConfig = initConfig ∧
    (DeviceConfig.EncodeFanState { initConfig with fan_state := some FanState.UNKNOWN }).turbo
        = false ∧
    (DeviceConfig.EncodeFanState { initConfig with fan_state := some FanState.UNKNOWN }).quiet_type
        = 0 ∧
    (DeviceConfig.EncodeFanState { initConfig with fan_state := some FanState.UNKNOWN }).fan_speed
        = 0 := by
  refine ⟨(encode_fan_state_none_vs_unknown initConfig).1 rfl, ?_⟩
  exact (encode_fan_state_none_vs_unknown
    { initConfig with fan_state := some FanState.UNKNOWN }).2.2 rfl

/-- C8: after `SetChecksum` writes the checksum into the final byte,
recomputing the checksum matches the final byte; changing any single byte at
an index in [2, len-2] to a different value makes the recomputed checksum
differ from the stored final byte; and buffers shorter than 4 bytes make the
checksum computation return an error instead of crashing. -/
theorem checksum_wrap_validate (buf wrapped : List ℕ)
    (hbytes : ∀ x ∈ buf, x < 256)
    (hw : DeviceSocket.SetChecksum buf = some wrapped) :
    DeviceSocket.CalcChecksum wrapped = some (wrapped.getD (wrapped.length - 1) 0) ∧
    (∀ i v, 2 ≤ i → i + 2 ≤ buf.length → v < 256 → v ≠ buf.getD i 0 →
      DeviceSocket.CalcChecksum (wrapped.set i v) ≠
        some ((wrapped.set i v).getD ((wrapped.set i v).length - 1) 0)) ∧
    (∀ l : List ℕ, l.length < 4 → DeviceSocket.CalcChecksum l = none) := by
  unfold DeviceSocket.SetChecksum DeviceSocket.CalcChecksum at hw
  by_cases hlen : buf.length < 4
  · rw [if_pos hlen] at hw
    simp at hw
  rw [if_neg hlen] at hw
  simp only [Option.map_some'] at hw
  injection hw with hw
  subst hw
  have hn : 4 ≤ buf.length := by omega
  set n := buf.length with hndef
  set S : ℕ := ∑ i ∈ Finset.range (n - 3), buf.getD (i + 2) 0 with hSdef
  have hlenset : (buf.set (n - 1) (S % 256)).length = n := by simp [hndef]
  have hsum_same : ∑ i ∈ Finset.range (n - 3), (buf.set (n - 1) (S % 256)).getD (i + 2) 0 = S := by
    rw [hSdef]
    refine Finset.sum_congr rfl ?_
    intro i hi
    rw [Finset.mem_range] at hi
    exact getD_set_of_ne _ _ _ _ _ (by omega)
  have hlast : (buf.set (n - 1) (S % 256)).getD (n - 1) 0 = S % 256 :=
    getD_set_self _ _ _ _ (by omega)
  refine ⟨?_, ?_, ?_⟩
  · unfold DeviceSocket.CalcChecksum
    rw [if_neg (by rw [hlenset]; omega)]
    rw [hlenset, hlast, hsum_same]
  · intro i v h2 hi hv hne heq
    have hine : n - 1 ≠ i := by omega
    have hlent : ((buf.set (n - 1) (S % 256)).set i v).length = n := by simp [hndef]
    unfold DeviceSocket.CalcChecksum at heq
    rw [if_neg (by rw [hlent]; omega)] at heq
    rw [hlent] at heq
    have hlast2 : ((buf.set (n - 1) (S % 256)).set i v).getD (n - 1) 0 = S % 256 := by
      rw [getD_set_of_ne _ _ _ _ _ (by omega), hlast]
    rw [hlast2] at heq
    injection heq with heq
    -- split both sums at position i - 2
    have hj0 : i - 2 ∈ Finset.range (n - 3) := by
      rw [Finset.mem_range]; omega
    have hTsplit :
        ∑ j ∈ Finset.range (n - 3), ((buf.set (n - 1) (S % 256)).set i v).getD (j + 2) 0 =
          v + ∑ j ∈ (Finset.range (n - 3)).erase (i - 2),
                buf.getD (j + 2) 0 := by
      rw [← Finset.add_sum_erase _ _ hj0]
      congr 1
      · rw [show i - 2 + 2 = i by omega]
        rw [getD_set_self _ _ _ _ (by rw [hlenset]; omega)]
      · refine Finset.sum_congr rfl ?_
        intro j hj
        rw [Finset.mem_erase] at hj
        rw [getD_set_of_ne _ _ _ _ _ (by omega), getD_set_of_ne _ _ _ _ _ (by
          rw [Finset.mem_range] at hj
          omega)]
    have hSsplit :
        S = buf.getD i 0 + ∑ j ∈ (Finset.range (n - 3)).erase (i - 2),
              buf.getD (j + 2) 0 := by
      rw [hSdef, ← Finset.add_sum_erase _ _ hj0, show i - 2 + 2 = i by omega]
    have hold : buf.getD i 0 < 256 := by
      have hmem : buf.getD i 0 ∈ buf := by
        rw [List.getD_eq_getElem?_getD, List.getElem?_eq_getElem (by omega)]
        exact List.getElem_mem _
      exact hbytes _ hmem
    rw [hTsplit] at heq
    rw [hSsplit] at heq
    omega
  · intro l hl
    unfold DeviceSocket.CalcChecksum
    rw [if_pos hl]


/-- C3: `DecodeFanState` derives the unified fan state with the exact
priority turbo (bit 0 of byte 10) → AUTO_QUIET (quiet_type 1, bits 3-2 of
byte 20) → QUIET (quiet_type 2) → quiet_type 3 leaves `fan_state` unchanged
without failing → otherwise fan_speed (bits 2-0 of byte 22) 0..5 maps
through AUTO, LEVEL_1..LEVEL_5 and any other value gives UNKNOWN. -/
theorem decode_fan_state_priority (self d : DeviceConfig) (buf : List ℕ)
    (hd : self.DecodeFanState buf = some d) :
    d.turbo = GetBit (buf.getD 10 0) 0 ∧
    d.quiet_type = GetBits (buf.getD 20 0) 2 2 ∧
    d.fan_speed = (GetBits (buf.getD 22 0) 0 3 : ℤ) ∧
    (GetBit (buf.getD 10 0) 0 = true → d.fan_state = some FanState.TURBO) ∧
    (GetBit (buf.getD 10 0) 0 = false → GetBits (buf.getD 20 0) 2 2 = 1 →
      d.fan_state = some FanState.AUTO_QUIET) ∧
    (GetBit (buf.getD 10 0) 0 = false → GetBits (buf.getD 20 0) 2 2 = 2 →
      d.fan_state = some FanState.QUIET) ∧
    (GetBit (buf.getD 10 0) 0 = false → GetBits (buf.getD 20 0) 2 2 = 3 →
      d.fan_state = self.fan_state) ∧
    (GetBit (buf.getD 10 0) 0 = false → GetBits (buf.getD 20 0) 2 2 = 0 →
      GetBits (buf.getD 22 0) 0 3 ≤ 5 →
      d.fan_state = some ([FanState.AUTO, FanState.LEVEL_1, FanState.LEVEL_2, FanState.LEVEL_3,
        FanState.LEVEL_4, FanState.LEVEL_5].getD (GetBits (buf.getD 22 0) 0 3)
          FanState.UNKNOWN)) ∧
    (GetBit (buf.getD 10 0) 0 = false → GetBits (buf.getD 20 0) 2 2 = 0 →
      5 < GetBits (buf.getD 22 0) 0 3 →
      d.fan_state = some FanState.UNKNOWN) := by
  have hvt := valveState_fromValue_total (GetBits (buf.getD 11 0) 4 2)
    (by simpa using getBits_lt (buf.getD 11 0) 4 2)
  rw [Option.isSome_iff_exists] at hvt
  obtain ⟨iv, hiv⟩ := hvt
  unfold DeviceConfig.DecodeFanState at hd
  rw [hiv] at hd
  injection hd with hd
  subst hd
  set s : DeviceConfig := { DeviceConfig.DecodeFanStateFlags self buf with
    intake_exhaust := iv
    fan_speed := (GetBits (buf.getD 22 0) 0 3 : ℤ) } with hs
  have hturbo : s.turbo = GetBit (buf.getD 10 0) 0 := decodeFanStateFlags_turbo self buf
  have hqt : s.quiet_type = GetBits (buf.getD 20 0) 2 2 := decodeFanStateFlags_quiet_type self buf
  have hfs : s.fan_speed = (GetBits (buf.getD 22 0) 0 3 : ℤ) := rfl
  have hfstate : s.fan_state = self.fan_state := decodeFanStateFlags_fan_state self buf
  obtain ⟨u1, u2, u3, u4, u5, u6, u7, u8, u9⟩ := decodeFanStateUnify_spec s
  rw [hturbo] at u4 u5 u6 u7 u8 u9
  rw [hqt] at u5 u6 u7 u8 u9
  rw [hfstate] at u7
  rw [hfs] at u8 u9
  refine ⟨by rw [u1, hturbo], by rw [u2, hqt], by rw [u3], u4, u5, u6, u7, ?_, ?_⟩
  · intro hb hq hle
    rw [u8 hb hq (by positivity) (by exact_mod_cast hle)]
    norm_num
  · intro hb hq hlt
    exact u9 hb hq (by exact_mod_cast hlt)

/-- C3 witness: the priority at a concrete buffer with turbo and quiet both
set (turbo wins). -/
theorem decode_fan_state_priority_witness :
    ∃ d, initConfig.DecodeFanState (((List.replicate 51 0).set 10 1).set 20 8) = some d ∧
      d.fan_state = some FanState.TURBO := by
  obtain ⟨d, hd⟩ : ∃ d,
      initConfig.DecodeFanState (((List.replicate 51 0).set 10 1).set 20 8) = some d :=
    Option.isSome_iff_exists.mp (by decide)
  exact ⟨d, hd, (decode_fan_state_priority initConfig d _ hd).2.2.2.1 (by decide)⟩

/-- C8 witness: a concrete wrapped query frame validates against its own
checksum, fails after tampering with a payload byte, and a 3-byte buffer
yields an error. -/
theorem checksum_wrap_validate_witness :
    DeviceSocket.CalcChecksum [126, 126, 2, 2, 4] = some 4 ∧
    DeviceSocket.CalcChecksum [126, 126, 5, 2, 4] ≠ some 4 ∧
    DeviceSocket.CalcChecksum [0, 0, 0] = none := by
  have h := checksum_wrap_validate [126, 126, 2, 2, 0] [126, 126, 2, 2, 4]
    (by decide) (by decide)
  exact ⟨h.1, h.2.1 2 5 (by decide) (by decide) (by decide) (by decide), h.2.2 [0, 0, 0] (by decide)⟩


/-- C1 (amended): the raw output of `Encode` is a 40-byte command frame while
`Decode` expects a 51-byte status frame, so the literal composition
`decode(encode(state))` fails the length guard and reproduces nothing.  After
aligning the command frame into the status-frame layout (3 leading bytes,
8 trailing bytes — the field offsets differ by exactly 3), decoding the
encoded frame reproduces every independently representable field: mode,
power, temperature and unit (within the unit resolution), the fan-state
priority outcome, both air-direction enums, and all schedule fields. -/
theorem decode_encode_roundtrip (self : DeviceConfig) (u : Bool) (d0 : DeviceConfig)
    (v : FanState)
    (hv : self.valid = true)
    (hmode : self.mode ≠ DeviceMode.UNKNOWN)
    (hfan : self.fan_state = some v)
    (hvgood : v ∈ [FanState.AUTO, FanState.LEVEL_1, FanState.LEVEL_2, FanState.LEVEL_3,
      FanState.LEVEL_4, FanState.LEVEL_5, FanState.TURBO, FanState.QUIET,
      FanState.AUTO_QUIET])
    (hnc : self.noise_control_enable = false)
    (hie : self.intake_exhaust ≠ ValveState.UNKNOWN)
    (hhm : self.humidify_type ≠ HumidifyType.UNKNOWN)
    (htemp : (self.temp_units = TempUnits.FAHRENHEIT ∧
        ∃ n : ℕ, 61 ≤ n ∧ n ≤ 86 ∧ self.temp = (n : ℚ)) ∨
      (self.temp_units = TempUnits.CELSIUS ∧
        ∃ n : ℕ, 16 ≤ n ∧ n ≤ 30 ∧
          (self.temp = (n : ℚ) ∨ self.temp = (n : ℚ) + 0.5)))
    (hmon : self.minutes_until_on < 2048) (hmoff : self.minutes_until_off < 2048)
    (hclk : self.clock < 32768) (hscc : self.sleep_curve_clock < 32768)
    (hont : self.on_time < 2048) (hofft : self.off_time < 2048)
    (hdow : self.day_of_week < 8)
    (huc1 : self.timer_on_use_clock < 4) (huc2 : self.timer_off_use_clock < 4) :
    ∃ out d, self.Encode u = some out ∧
      d0.Decode (alignStatus out) = some (true, d) ∧
      d.mode = self.mode ∧
      d.is_on = self.is_on ∧
      d.temp_units = self.temp_units ∧
      d.temp = self.temp ∧
      d.fan_state = self.fan_state ∧
      d.vertical_air_direction = self.vertical_air_direction ∧
      d.horizontal_air_direction = self.horizontal_air_direction ∧
      d.timer_on_off_enable = self.timer_on_off_enable ∧
      d.timer_on_enable = self.timer_on_enable ∧
      d.timer_off_enable = self.timer_off_enable ∧
      d.timer_remote_flag = self.timer_remote_flag ∧
      d.minutes_until_on = self.minutes_until_on ∧
      d.minutes_until_off = self.minutes_until_off ∧
      d.clock = self.clock ∧
      d.sleep_curve_clock = self.sleep_curve_clock ∧
      d.timer_on_use_clock = self.timer_on_use_clock ∧
      d.timer_off_use_clock = self.timer_off_use_clock ∧
      d.on_time = self.on_time ∧
      d.off_time = self.off_time ∧
      d.day_of_week = self.day_of_week ∧
      d.day_of_week_on_mask = self.day_of_week_on_mask ∧
      d.day_of_week_off_mask = self.day_of_week_off_mask := by
  obtain ⟨out, hout⟩ : ∃ o, DeviceConfig.SetChecksum
      (DeviceConfig.EncodeLayout self (DeviceConfig.EncodeNormalize self) u) = o := ⟨_, rfl⟩
  obtain ⟨B, hB⟩ : ∃ b, alignStatus out = b := ⟨_, rfl⟩
  have hlenO : out.length = 40 := by
    rw [← hout]
    unfold DeviceConfig.SetChecksum
    rw [List.length_set]
    exact encodeLayout_length self (DeviceConfig.EncodeNormalize self) u
  have hlenB : B.length = 51 := by
    rw [← hB, alignStatus_length, hlenO]
  have hByte : ∀ i, i < 39 → B.getD (i + 3) 0 =
      ((DeviceConfig.EncodeLayout self (DeviceConfig.EncodeNormalize self) u).getD i 0).toNat := by
    intro i hi
    rw [← hB, alignStatus_getD out i (by omega), ← hout,
      setChecksum_getD _ i (by rw [encodeLayout_length]; omega)]
  obtain ⟨tb, qt, fs, ie, sc, hm2, pu, hsh⟩ := encodeNormalize_shape self
  have hNis : (DeviceConfig.EncodeNormalize self).is_on = self.is_on := by rw [hsh]
  have hNmode : (DeviceConfig.EncodeNormalize self).mode = self.mode := by rw [hsh]
  have hNtemp : (DeviceConfig.EncodeNormalize self).temp = self.temp := by rw [hsh]
  have hNunits : (DeviceConfig.EncodeNormalize self).temp_units = self.temp_units := by rw [hsh]
  have hNvad : (DeviceConfig.EncodeNormalize self).vertical_air_direction =
      self.vertical_air_direction := by rw [hsh]
  have hNhad : (DeviceConfig.EncodeNormalize self).horizontal_air_direction =
      self.horizontal_air_direction := by rw [hsh]
  have hNtoe : (DeviceConfig.EncodeNormalize self).timer_on_off_enable =
      self.timer_on_off_enable := by rw [hsh]
  have hNton : (DeviceConfig.EncodeNormalize self).timer_on_enable =
      self.timer_on_enable := by rw [hsh]
  have hNtoff : (DeviceConfig.EncodeNormalize self).timer_off_enable =
      self.timer_off_enable := by rw [hsh]
  have hNtrf : (DeviceConfig.EncodeNormalize self).timer_remote_flag =
      self.timer_remote_flag := by rw [hsh]
  have hNmon : (DeviceConfig.EncodeNormalize self).minutes_until_on =
      self.minutes_until_on := by rw [hsh]
  have hNmoff : (DeviceConfig.EncodeNormalize self).minutes_until_off =
      self.minutes_until_off := by rw [hsh]
  have hNclk : (DeviceConfig.EncodeNormalize self).clock = self.clock := by rw [hsh]
  have hNscc : (DeviceConfig.EncodeNormalize self).sleep_curve_clock =
      self.sleep_curve_clock := by rw [hsh]
  have hNuc1 : (DeviceConfig.EncodeNormalize self).timer_on_use_clock =
      self.timer_on_use_clock := by rw [hsh]
  have hNuc2 : (DeviceConfig.EncodeNormalize self).timer_off_use_clock =
      self.timer_off_use_clock := by rw [hsh]
  have hNont : (DeviceConfig.EncodeNormalize self).on_time = self.on_time := by rw [hsh]
  have hNofft : (DeviceConfig.EncodeNormalize self).off_time = self.off_time := by rw [hsh]
  have hNdow : (DeviceConfig.EncodeNormalize self).day_of_week = self.day_of_week := by rw [hsh]
  have hNm1 : (DeviceConfig.EncodeNormalize self).day_of_week_on_mask =
      self.day_of_week_on_mask := by rw [hsh]
  have hNm2 : (DeviceConfig.EncodeNormalize self).day_of_week_off_mask =
      self.day_of_week_off_mask := by rw [hsh]
  have hNmb : (DeviceConfig.EncodeNormalize self).mode_mystery_bit_2 =
      self.mode_mystery_bit_2 := by rw [hsh]
  obtain ⟨htb, hqt, hfs⟩ := normalize_fan_values self v hfan hnc
  have hqtlt : (DeviceConfig.EncodeNormalize self).quiet_type < 3 := by
    rw [hqt]
    split_ifs <;> norm_num
  obtain ⟨fsN, hfsv, hfslt⟩ : ∃ n : ℕ,
      (DeviceConfig.EncodeNormalize self).fan_speed = (n : ℤ) ∧ n < 6 := by
    rw [hfs]
    split_ifs with hmem
    · simp only [List.mem_cons, List.mem_singleton, List.not_mem_nil, or_false] at hmem
      rcases hmem with rfl | rfl | rfl | rfl | rfl | rfl <;> first
        | exact ⟨0, rfl, by norm_num⟩
        | exact ⟨1, rfl, by norm_num⟩
        | exact ⟨2, rfl, by norm_num⟩
        | exact ⟨3, rfl, by norm_num⟩
        | exact ⟨4, rfl, by norm_num⟩
        | exact ⟨5, rfl, by norm_num⟩
    · exact ⟨0, rfl, by norm_num⟩
  obtain ⟨mN, hmv, hmlt, hmfrom⟩ := mode_value_spec self.mode hmode
  obtain ⟨vN, hvv, hvlt, hvfrom⟩ := vad_value_spec self.vertical_air_direction
  obtain ⟨haN, hhv, hhlt, hhfrom⟩ := had_value_spec self.horizontal_air_direction
  obtain ⟨iN, hivv, hivlt⟩ := intake_value_spec _ (normalize_intake self hie)
  obtain ⟨humN, humv, humlt⟩ := hum_value_spec _ (normalize_hum self hhm)
  obtain ⟨s2N, hs2, hs2lt⟩ := sleep_land_spec (DeviceConfig.EncodeNormalize self).sleep_curve_type
  obtain ⟨s1N, hs1, hs1lt⟩ := sleep_land1_spec (DeviceConfig.EncodeNormalize self).sleep_curve_type
  obtain ⟨eN, helt, hev⟩ : ∃ e : ℕ, e < 15 ∧
      (DeviceConfig.EncodeNormalize self).EncodeTemp
        (DeviceConfig.EncodeNormalize self).temp = (e : ℤ) := by
    rcases htemp with ⟨hu, n, h61, h86, htv⟩ | ⟨hu, n, h16, h30, htv⟩
    · have hk : n - 61 < 26 := by omega
      have hco := tempF_codec (n - 61) hk
      rw [show (n - 61) + 61 = n from by omega] at hco
      obtain ⟨hc0, hc14, h_⟩ := hco
      rw [encodeTemp_F _ (by rw [hNunits]; exact hu), hNtemp, htv]
      exact ⟨(min (max (pytrunc (((n : ℚ) - 32) / 9 * 5 - 15.5)) 0) 14).toNat,
        by omega, (Int.toNat_of_nonneg hc0).symm⟩
    · have hk : n - 16 < 15 := by omega
      rcases htv with htv | htv
      · have hco := tempC_codec_whole (n - 16) hk
        rw [show (n - 16) + 16 = n from by omega] at hco
        obtain ⟨hc0, hc14, h_⟩ := hco
        rw [encodeTemp_C _ (by rw [hNunits]; exact hu), hNtemp, htv]
        exact ⟨(pytrunc ((n : ℚ)) - 16).toNat, by omega, (Int.toNat_of_nonneg hc0).symm⟩
      · have hco := tempC_codec_half (n - 16) hk
        rw [show (n - 16) + 16 = n from by omega] at hco
        obtain ⟨hc0, hc14, h_⟩ := hco
        rw [encodeTemp_C _ (by rw [hNunits]; exact hu), hNtemp, htv]
        exact ⟨(pytrunc ((n : ℚ) + 0.5) - 16).toNat, by omega, (Int.toNat_of_nonneg hc0).symm⟩
  have ha5 : (fsN + 1) >>> 1 < 4 := by
    rw [Nat.shiftRight_eq_div_pow]
    omega
  have hmon8 : self.minutes_until_on / 256 < 8 := by omega
  have hmoff16 : self.minutes_until_off % 16 < 16 := Nat.mod_lt _ (by norm_num)
  have hulr : (if (DeviceConfig.EncodeNormalize self).temp_units = TempUnits.FAHRENHEIT
      then (1 : ℕ) else 0) < 2 := by
    split_ifs <;> norm_num
  have hu8cast : (if (DeviceConfig.EncodeNormalize self).temp_units = TempUnits.FAHRENHEIT
        then (1 : ℤ) else 0) =
      (((if (DeviceConfig.EncodeNormalize self).temp_units = TempUnits.FAHRENHEIT
        then 1 else 0 : ℕ)) : ℤ) := by
    split_ifs <;> rfl
  have h5 := hByte 5 (by norm_num)
  rw [encodeLayout_getD_5 self (DeviceConfig.EncodeNormalize self) u] at h5
  rw [hNis, hNmode, hNmb, hfsv, hmv, hs2] at h5
  simp only [boolVal_natCast, ← Nat.cast_add_one, pyShr_natCast, pyShl_natCast,
    intLor_natCast, Int.toNat_natCast] at h5
  have h6 := hByte 6 (by norm_num)
  rw [encodeLayout_getD_6 self (DeviceConfig.EncodeNormalize self) u] at h6
  rw [hev, hNtoe] at h6
  simp only [boolVal_natCast, pyShl_natCast, intLor_natCast, Int.toNat_natCast] at h6
  have hturbo : GetBit (B.getD 10 0) 0 = decide (v = FanState.TURBO) := by
    have h7 := hByte 7 (by norm_num)
    rw [encodeLayout_getD_7 self (DeviceConfig.EncodeNormalize self) u, htb] at h7
    split_ifs at h7 <;>
      simp only [boolVal_natCast, pyShl_natCast, intLor_natCast, Int.toNat_natCast,
        Nat.shiftLeft_zero] at h7 <;>
      rw [h7]
    · rw [bits_byte7_ext _ (Bool.toNat_lt _) _ (Bool.toNat_lt _) _ (Bool.toNat_lt _)
        _ (Bool.toNat_lt _)]
      exact decide_toNat_eq_one _
    · rw [bits_byte7_ext _ (Bool.toNat_lt _) _ (Bool.toNat_lt _) _ (Bool.toNat_lt _)
        _ (Bool.toNat_lt _)]
      exact decide_toNat_eq_one _
    · rw [bits_byte7_base _ (Bool.toNat_lt _) _ (Bool.toNat_lt _) _ (Bool.toNat_lt _)]
      exact decide_toNat_eq_one _
  have h8 := hByte 8 (by norm_num)
  rw [encodeLayout_getD_8 self (DeviceConfig.EncodeNormalize self) u] at h8
  rw [hivv, hu8cast] at h8
  simp only [boolVal_natCast, pyShl_natCast, intLor_natCast, Int.toNat_natCast,
    show (2 : ℤ) = ((2 : ℕ) : ℤ) from rfl] at h8
  have h9 := hByte 9 (by norm_num)
  rw [encodeLayout_getD_9 self (DeviceConfig.EncodeNormalize self) u, hNvad, hNhad,
    hvv, hhv] at h9
  simp only [pyShl_natCast, intLor_natCast, Int.toNat_natCast] at h9
  have h11 := hByte 11 (by norm_num)
  rw [encodeLayout_getD_11 self (DeviceConfig.EncodeNormalize self) u, humv] at h11
  simp only [boolVal_natCast, pyShl_natCast, intLor_natCast, Int.toNat_natCast] at h11
  have h13 := hByte 13 (by norm_num)
  rw [encodeLayout_getD_13 self (DeviceConfig.EncodeNormalize self) u, hNmon,
    Int.toNat_natCast, and_255_eq_mod] at h13
  have h14 := hByte 14 (by norm_num)
  rw [encodeLayout_getD_14 self (DeviceConfig.EncodeNormalize self) u, hNmon, hNmoff,
    hNtrf] at h14
  simp only [boolVal_natCast, pyShl_natCast, intLor_natCast, Int.toNat_natCast] at h14
  rw [mask_700 _ hmon, and_15_eq_mod] at h14
  have h15 := hByte 15 (by norm_num)
  rw [encodeLayout_getD_15 self (DeviceConfig.EncodeNormalize self) u, hNmoff,
    Int.toNat_natCast, mask_7f0 _ hmoff] at h15
  have h16 := hByte 16 (by norm_num)
  rw [encodeLayout_getD_16 self (DeviceConfig.EncodeNormalize self) u, hNton, hNtoff] at h16
  simp only [boolVal_natCast, pyShl_natCast, intLor_natCast, Int.toNat_natCast] at h16
  have hquiet : GetBits (B.getD 20 0) 2 2 = (DeviceConfig.EncodeNormalize self).quiet_type := by
    have h17 := hByte 17 (by norm_num)
    rw [encodeLayout_getD_17 self (DeviceConfig.EncodeNormalize self) u] at h17
    by_cases hsies :
        (DeviceConfig.EncodeNormalize self).sleep_curve_type = SleepCurveType.SIESTA
    · rw [if_pos hsies, hsies] at h17
      rw [show SleepCurveType.SIESTA.value = ((128 : ℕ) : ℤ) from rfl] at h17
      simp only [pyShl_natCast, intLor_natCast, Int.toNat_natCast] at h17
      rw [h17]
      exact bits_byte17_siesta _ hqtlt
    · rw [if_neg hsies, hs1] at h17
      simp only [pyShl_natCast, intLor_natCast, Int.toNat_natCast] at h17
      rw [h17]
      exact bits_byte17_plain _ hqtlt _ hs1lt
  have h19 := hByte 19 (by norm_num)
  rw [encodeLayout_getD_19 self (DeviceConfig.EncodeNormalize self) u, hfsv,
    Int.toNat_natCast] at h19
  have h26 := hByte 26 (by norm_num)
  rw [encodeLayout_getD_26 self (DeviceConfig.EncodeNormalize self) u, hNclk,
    Int.toNat_natCast, shiftRight8_eq_div] at h26
  have h27 := hByte 27 (by norm_num)
  rw [encodeLayout_getD_27 self (DeviceConfig.EncodeNormalize self) u, hNclk,
    Int.toNat_natCast, and_255_eq_mod] at h27
  have h28 := hByte 28 (by norm_num)
  rw [encodeLayout_getD_28 self (DeviceConfig.EncodeNormalize self) u, hNscc,
    Int.toNat_natCast, shiftRight8_eq_div] at h28
  have h29 := hByte 29 (by norm_num)
  rw [encodeLayout_getD_29 self (DeviceConfig.EncodeNormalize self) u, hNscc,
    Int.toNat_natCast, and_255_eq_mod] at h29
  have h30 := hByte 30 (by norm_num)
  rw [encodeLayout_getD_30 self (DeviceConfig.EncodeNormalize self) u, hNuc1, hNuc2,
    hNofft, Int.toNat_natCast, shiftRight8_eq_div] at h30
  have h31 := hByte 31 (by norm_num)
  rw [encodeLayout_getD_31 self (DeviceConfig.EncodeNormalize self) u, hNofft,
    Int.toNat_natCast, and_255_eq_mod] at h31
  have h32 := hByte 32 (by norm_num)
  rw [encodeLayout_getD_32 self (DeviceConfig.EncodeNormalize self) u, hNdow, hNont,
    Int.toNat_natCast, shiftRight8_eq_div] at h32
  have h33 := hByte 33 (by norm_num)
  rw [encodeLayout_getD_33 self (DeviceConfig.EncodeNormalize self) u, hNont,
    Int.toNat_natCast, and_255_eq_mod] at h33
  have h34 := hByte 34 (by norm_num)
  rw [encodeLayout_getD_34 self (DeviceConfig.EncodeNormalize self) u, hNm1,
    Int.toNat_natCast] at h34
  have h35 := hByte 35 (by norm_num)
  rw [encodeLayout_getD_35 self (DeviceConfig.EncodeNormalize self) u, hNm2,
    Int.toNat_natCast] at h35
  have hlenGE : ¬ B.length < 51 := by
    rw [hlenB]
    omega
  have hmbits : GetBits (B.getD 8 0) 4 3 = mN := by
    rw [h5]
    exact (bits_byte5 _ ha5 _ (Bool.toNat_lt _) _ hmlt _ hs2lt _ (Bool.toNat_lt _)).1
  have hmfrom2 : DeviceMode.fromValue (GetBits (B.getD 8 0) 4 3) = some self.mode := by
    rw [hmbits]
    exact hmfrom
  obtain ⟨iv, hivfrom⟩ := Option.isSome_iff_exists.mp
    (valveState_fromValue_total (GetBits (B.getD 11 0) 4 2)
      (lt_of_lt_of_le (getBits_lt _ 4 2) (by norm_num)))
  have hvadbits : GetBits (B.getD 12 0) 4 4 = vN := by
    rw [h9]
    exact (bits_byte9 _ hvlt _ hhlt).1
  have hvadfrom2 : VerticalAirDirection.fromValue (GetBits (B.getD 12 0) 4 4) =
      some self.vertical_air_direction := by
    rw [hvadbits]
    exact hvfrom
  have hhadbits : GetBits (B.getD 12 0) 0 4 = haN := by
    rw [h9]
    exact (bits_byte9 _ hvlt _ hhlt).2
  have hhadfrom2 : HorizontalAirDirection.fromValue (GetBits (B.getD 12 0) 0 4) =
      some self.horizontal_air_direction := by
    rw [hhadbits]
    exact hhfrom
  obtain ⟨td, htdfrom⟩ := Option.isSome_iff_exists.mp
    (tempDisplay_fromValue_total (GetBits (B.getD 13 0) 4 2)
      (lt_of_lt_of_le (getBits_lt _ 4 2) (by norm_num)))
  have hhumbits : GetBits (B.getD 14 0) 4 3 = humN := by
    rw [h11]
    exact (bits_byte11 _ (Bool.toNat_lt _) _ humlt).2
  obtain ⟨humE, hhumfrom⟩ := Option.isSome_iff_exists.mp
    (show (HumidifyType.fromValue (GetBits (B.getD 14 0) 4 3)).isSome = true by
      rw [hhumbits]
      exact (hum_fromValue_isSome_iff humN (by omega)).mpr (by omega))
  obtain ⟨sctE, hsctfrom⟩ := Option.isSome_iff_exists.mp
    (sct_fromValue_total (B.getD 8 0) (B.getD 20 0))
  have hdec := decode_eq_decodedConfig d0 B hlenGE self.mode hmfrom2 iv hivfrom
    self.vertical_air_direction hvadfrom2 self.horizontal_air_direction hhadfrom2
    td htdfrom humE hhumfrom sctE hsctfrom
  obtain ⟨hd_valid, hd_ison, hd_mode, hd_units, hd_tempC, hd_tempF, hd_turbo, hd_qt,
    hd_fs, hd_fT, hd_fAQ, hd_fQ, hd_fQ3, hd_fMap, hd_fU, hd_vad, hd_had, hd_td, hd_hum,
    hd_sct, hd_urt, hd_ha, hd_mon, hd_moff, hd_trf, hd_ton, hd_toff, hd_toe, hd_clk,
    hd_scc, hd_uc1, hd_uc2, hd_offt, hd_ont, hd_dow, hd_m1, hd_m2, hd_reg⟩ :=
    decodedConfig_fields d0 B self.mode iv self.vertical_air_direction
      self.horizontal_air_direction td humE sctE
  have henc2 : self.Encode u = some out := by
    rw [encode_eq self u hv, hout]
  have hdec2 : d0.Decode (alignStatus out) = some (true, decodedConfig d0 B self.mode iv
      self.vertical_air_direction self.horizontal_air_direction td humE sctE) := by
    rw [hB]
    exact hdec
  have hubits : GetBits (B.getD 11 0) 7 1 =
      (if (DeviceConfig.EncodeNormalize self).temp_units = TempUnits.FAHRENHEIT
        then 1 else 0) := by
    rw [h8]
    exact (bits_byte8 _ (Bool.toNat_lt _) _ hulr _ hivlt).1
  have hfbbits : GetBits (B.getD 11 0) 6 1 =
      (DeviceConfig.EncodeTempFahrenheitFractionalBit
        (DeviceConfig.EncodeNormalize self).temp
        (DeviceConfig.EncodeNormalize self).temp_units).toNat := by
    rw [h8]
    exact (bits_byte8 _ (Bool.toNat_lt _) _ hulr _ hivlt).2
  have hc_units : (decodedConfig d0 B self.mode iv self.vertical_air_direction
      self.horizontal_air_direction td humE sctE).temp_units = self.temp_units := by
    rw [hd_units, hubits]
    rcases htemp with ⟨hu, h_⟩ | ⟨hu, h_⟩
    · rw [hNunits, hu]
      simp
    · rw [hNunits, hu]
      simp
  refine ⟨out, decodedConfig d0 B self.mode iv self.vertical_air_direction
    self.horizontal_air_direction td humE sctE, henc2, hdec2, hd_mode, ?_, hc_units, ?_,
    ?_, hd_vad, hd_had, ?_, ?_, ?_, ?_, ?_, ?_, ?_, ?_, ?_, ?_, ?_, ?_, ?_, ?_, ?_⟩
  · rw [hd_ison, h5,
      (bits_byte5 _ ha5 _ (Bool.toNat_lt _) _ hmlt _ hs2lt _ (Bool.toNat_lt _)).2]
    exact decide_toNat_eq_one _
  · rcases htemp with ⟨hu, n, h61, h86, htv⟩ | ⟨hu, n, h16, h30, htv⟩
    · have hDu : (decodedConfig d0 B self.mode iv self.vertical_air_direction
          self.horizontal_air_direction td humE sctE).temp_units = TempUnits.FAHRENHEIT := by
        rw [hc_units, hu]
      have htempd := hd_tempF hDu
      have he9 : GetBits (B.getD 9 0) 4 4 = eN := by
        rw [h6]
        exact (bits_byte6 _ helt _ (Bool.toNat_lt _)).1
      have hfbv : DeviceConfig.EncodeTempFahrenheitFractionalBit
          (DeviceConfig.EncodeNormalize self).temp
          (DeviceConfig.EncodeNormalize self).temp_units =
          decide ((n : ℚ) ∈ ([63, 65, 67, 70, 72, 74, 76, 79, 81, 83, 85] : List ℚ)) := by
        rw [hNtemp, hNunits, htv, hu, fahrFrac_F]
      have hk : n - 61 < 26 := by omega
      have hco := tempF_codec (n - 61) hk
      rw [show (n - 61) + 61 = n from by omega] at hco
      obtain ⟨hc0, hc14, hcdec⟩ := hco
      have hevF : ((eN : ℤ)) = min (max (pytrunc (((n : ℚ) - 32) / 9 * 5 - 15.5)) 0) 14 := by
        rw [← hev, encodeTemp_F _ (by rw [hNunits]; exact hu), hNtemp, htv]
      have heNtoNat : (min (max (pytrunc (((n : ℚ) - 32) / 9 * 5 - 15.5)) 0) 14).toNat
          = eN := by
        rw [← hevF, Int.toNat_natCast]
      rw [heNtoNat] at hcdec
      rw [htempd, he9, hfbbits, hfbv, htv]
      exact hcdec
    · have hDu : (decodedConfig d0 B self.mode iv self.vertical_air_direction
          self.horizontal_air_direction td humE sctE).temp_units = TempUnits.CELSIUS := by
        rw [hc_units, hu]
      have htempd := hd_tempC hDu
      have he9 : GetBits (B.getD 9 0) 4 4 = eN := by
        rw [h6]
        exact (bits_byte6 _ helt _ (Bool.toNat_lt _)).1
      have hcfbit : GetBit (B.getD 14 0) 3 = DeviceConfig.EncodeTempCelciusFractionalBit
          (DeviceConfig.EncodeNormalize self).temp
          (DeviceConfig.EncodeNormalize self).temp_units := by
        rw [h11, (bits_byte11 _ (Bool.toNat_lt _) _ humlt).1]
        exact decide_toNat_eq_one _
      have hk : n - 16 < 15 := by omega
      rcases htv with htv | htv
      · have hco := tempC_codec_whole (n - 16) hk
        rw [show (n - 16) + 16 = n from by omega] at hco
        obtain ⟨hc0, hc14, hcrt, hcfr⟩ := hco
        have hevC : ((eN : ℤ)) = pytrunc ((n : ℚ)) - 16 := by
          rw [← hev, encodeTemp_C _ (by rw [hNunits]; exact hu), hNtemp, htv]
        have hcf : DeviceConfig.EncodeTempCelciusFractionalBit
            (DeviceConfig.EncodeNormalize self).temp
            (DeviceConfig.EncodeNormalize self).temp_units = false := by
          rw [hNtemp, hNunits, htv, hu, celFrac_C]
          exact hcfr
        have heq : (pytrunc ((n : ℚ)) - 16).toNat = eN := by
          rw [← hevC, Int.toNat_natCast]
        rw [htempd, hcfbit, hcf, if_neg (by decide), he9, htv, ← heq]
        exact hcrt
      · have hco := tempC_codec_half (n - 16) hk
        rw [show (n - 16) + 16 = n from by omega] at hco
        obtain ⟨hc0, hc14, hcrt, hcfr⟩ := hco
        have hevC : ((eN : ℤ)) = pytrunc ((n : ℚ) + 0.5) - 16 := by
          rw [← hev, encodeTemp_C _ (by rw [hNunits]; exact hu), hNtemp, htv]
        have hcf : DeviceConfig.EncodeTempCelciusFractionalBit
            (DeviceConfig.EncodeNormalize self).temp
            (DeviceConfig.EncodeNormalize self).temp_units = true := by
          rw [hNtemp, hNunits, htv, hu, celFrac_C]
          exact hcfr
        have heq : (pytrunc ((n : ℚ) + 0.5) - 16).toNat = eN := by
          rw [← hevC, Int.toNat_natCast]
        rw [htempd, hcfbit, hcf, if_pos rfl, he9, htv, ← heq]
        exact hcrt
  · rw [hfan]
    have hfsbits : GetBits (B.getD 22 0) 0 3 = fsN := by
      rw [h19]
      exact bits_byte19 _ (by omega)
    simp only [List.mem_cons, List.mem_singleton, List.not_mem_nil, or_false] at hvgood
    rcases hvgood with rfl | rfl | rfl | rfl | rfl | rfl | rfl | rfl | rfl
    · have hf0 : fsN = 0 := by
        have hz : ((fsN : ℤ)) = 0 := by
          rw [← hfsv, hfs]
          rfl
        exact_mod_cast hz
      have hmap := hd_fMap (by rw [hturbo]; rfl) (by rw [hquiet, hqt]; rfl)
        (by rw [hfsbits, hf0]; omega)
      rw [hmap, hfsbits, hf0]
      rfl
    · have hf1 : fsN = 1 := by
        have hz : ((fsN : ℤ)) = 1 := by
          rw [← hfsv, hfs]
          rfl
        exact_mod_cast hz
      have hmap := hd_fMap (by rw [hturbo]; rfl) (by rw [hquiet, hqt]; rfl)
        (by rw [hfsbits, hf1]; omega)
      rw [hmap, hfsbits, hf1]
      rfl
    · have hf2 : fsN = 2 := by
        have hz : ((fsN : ℤ)) = 2 := by
          rw [← hfsv, hfs]
          rfl
        exact_mod_cast hz
      have hmap := hd_fMap (by rw [hturbo]; rfl) (by rw [hquiet, hqt]; rfl)
        (by rw [hfsbits, hf2]; omega)
      rw [hmap, hfsbits, hf2]
      rfl
    · have hf3 : fsN = 3 := by
        have hz : ((fsN : ℤ)) = 3 := by
          rw [← hfsv, hfs]
          rfl
        exact_mod_cast hz
      have hmap := hd_fMap (by rw [hturbo]; rfl) (by rw [hquiet, hqt]; rfl)
        (by rw [hfsbits, hf3]; omega)
      rw [hmap, hfsbits, hf3]
      rfl
    · have hf4 : fsN = 4 := by
        have hz : ((fsN : ℤ)) = 4 := by
          rw [← hfsv, hfs]
          rfl
        exact_mod_cast hz
      have hmap := hd_fMap (by rw [hturbo]; rfl) (by rw [hquiet, hqt]; rfl)
        (by rw [hfsbits, hf4]; omega)
      rw [hmap, hfsbits, hf4]
      rfl
    · have hf5 : fsN = 5 := by
        have hz : ((fsN : ℤ)) = 5 := by
          rw [← hfsv, hfs]
          rfl
        exact_mod_cast hz
      have hmap := hd_fMap (by rw [hturbo]; rfl) (by rw [hquiet, hqt]; rfl)
        (by rw [hfsbits, hf5])
      rw [hmap, hfsbits, hf5]
      rfl
    · exact hd_fT (by rw [hturbo]; rfl)
    · exact hd_fQ (by rw [hturbo]; rfl) (by rw [hquiet, hqt]; rfl)
    · exact hd_fAQ (by rw [hturbo]; rfl) (by rw [hquiet, hqt]; rfl)
  · rw [hd_toe, h6, (bits_byte6 _ helt _ (Bool.toNat_lt _)).2]
    exact decide_toNat_eq_one _
  · rw [hd_ton, h16, (bits_byte16 _ (Bool.toNat_lt _) _ (Bool.toNat_lt _)).1]
    exact decide_toNat_eq_one _
  · rw [hd_toff, h16, (bits_byte16 _ (Bool.toNat_lt _) _ (Bool.toNat_lt _)).2]
    exact decide_toNat_eq_one _
  · rw [hd_trf, h14, (bits_byte14 _ hmon8 _ hmoff16 _ (Bool.toNat_lt _)).2.2]
    exact decide_toNat_eq_one _
  · rw [hd_mon, h14, h13, (bits_byte14 _ hmon8 _ hmoff16 _ (Bool.toNat_lt _)).1,
      or_mul_add_256 _ _ (Nat.mod_lt _ (by norm_num))]
    omega
  · rw [hd_moff, h15, h14, and_127_of_lt _ (by omega),
      (bits_byte14 _ hmon8 _ hmoff16 _ (Bool.toNat_lt _)).2.1, Nat.shiftLeft_eq,
      show self.minutes_until_off / 16 * 2 ^ 4 = self.minutes_until_off / 16 * 16
        from by norm_num,
      or_mul_add_16 _ _ (Nat.mod_lt _ (by norm_num))]
    omega
  · rw [hd_clk, h26, h27, and_127_of_lt _ (by omega), hiLo_recompose _ hclk]
  · rw [hd_scc, h28, h29, and_127_of_lt _ (by omega), hiLo_recompose _ hscc]
  · rw [hd_uc1, h30]
    exact (bits_byte30 _ huc1 _ huc2 _ (by omega)).1
  · rw [hd_uc2, h30]
    exact (bits_byte30 _ huc1 _ huc2 _ (by omega)).2.1
  · rw [hd_ont, h32, h33, (bits_byte32 _ hdow _ (by omega)).2,
      hiLo_recompose _ (by omega)]
  · rw [hd_offt, h30, h31, (bits_byte30 _ huc1 _ huc2 _ (by omega)).2.2,
      hiLo_recompose _ (by omega)]
  · rw [hd_dow, h32]
    exact (bits_byte32 _ hdow _ (by omega)).1
  · rw [hd_m1]
    exact h34
  · rw [hd_m2]
    exact h35


/-- Counterexample to the literal C1 statement: `Encode` produces a 40-byte
command frame but `Decode` requires at least 51 bytes, so feeding the encoded
frame of a fully populated valid state straight back into `Decode` trips the
length guard: the decode reports failure and leaves the state untouched,
reproducing no field at all. -/
theorem decode_encode_literal_mismatch :
    (sampleValid.Encode true).isSome = true ∧
    (((sampleValid.Encode true).getD []).map Int.toNat).length = 40 ∧
    (sampleValid.Decode
      (((sampleValid.Encode true).getD []).map Int.toNat)).map Prod.fst = some false := by
  refine ⟨by decide, by decide, by decide⟩

theorem decode_encode_roundtrip_witness :
    ∃ out d, sampleValid.Encode true = some out ∧
      initConfig.Decode (alignStatus out) = some (true, d) ∧
      d.mode = sampleValid.mode ∧
      d.is_on = sampleValid.is_on ∧
      d.temp_units = sampleValid.temp_units ∧
      d.temp = sampleValid.temp ∧
      d.fan_state = sampleValid.fan_state ∧
      d.vertical_air_direction = sampleValid.vertical_air_direction ∧
      d.horizontal_air_direction = sampleValid.horizontal_air_direction ∧
      d.timer_on_off_enable = sampleValid.timer_on_off_enable ∧
      d.timer_on_enable = sampleValid.timer_on_enable ∧
      d.timer_off_enable = sampleValid.timer_off_enable ∧
      d.timer_remote_flag = sampleValid.timer_remote_flag ∧
      d.minutes_until_on = sampleValid.minutes_until_on ∧
      d.minutes_until_off = sampleValid.minutes_until_off ∧
      d.clock = sampleValid.clock ∧
      d.sleep_curve_clock = sampleValid.sleep_curve_clock ∧
      d.timer_on_use_clock = sampleValid.timer_on_use_clock ∧
      d.timer_off_use_clock = sampleValid.timer_off_use_clock ∧
      d.on_time = sampleValid.on_time ∧
      d.off_time = sampleValid.off_time ∧
      d.day_of_week = sampleValid.day_of_week ∧
      d.day_of_week_on_mask = sampleValid.day_of_week_on_mask ∧
      d.day_of_week_off_mask = sampleValid.day_of_week_off_mask :=
  decode_encode_roundtrip sampleValid true initConfig FanState.LEVEL_5 rfl (by decide)
    rfl (by decide) rfl (by decide) (by decide)
    (Or.inl ⟨rfl, 72, by norm_num, by norm_num, by norm_num [sampleValid]⟩)
    (by decide) (by decide) (by decide) (by decide) (by decide) (by decide) (by decide)
    (by decide) (by decide)

end GreeControl
